import Mathlib

/-!
Verification of the WarehouseManagement repository (Flask/SQLAlchemy ERP for an
injection-moulding business) against its natural-language specification.

The relevant program fragments are shallowly embedded here:
* `Quote.calculate_costs` (app/models/costing.py) and the `Item` costing
  properties (app/models/inventory.py) over exact rationals;
* the `ShiftLog` OEE percentage properties (app/models/oee.py);
* the sales-order status transition table (app/routes/orders.py);
* the stock-mutating route handlers (app/routes/inventory.py) as explicit
  state-passing functions over lists of stock levels and ledger entries;
* the CSV import handlers (app/routes/data_management.py), together with
  enough of Python/SQLAlchemy attribute semantics (declarative constructors
  reject unknown keyword arguments; reading an attribute that is neither a
  mapped column nor previously set raises AttributeError; `filter_by` on a
  non-existent column raises) to settle the import claims.

Nullable ORM columns are `Option ℚ` / `Option ℤ`; Python float arithmetic is
modelled with exact rationals.
-/

namespace WMS

/-! ## Costing model (app/models/costing.py, app/models/inventory.py) -/

/-- Python `x or d` for a nullable numeric column: `None` and `0` both fall
back to the default. Used where the source writes `self.cavities or 1`. -/
def effCavities (c : Option ℤ) : ℤ :=
  match c with
  | Option.none => 1
  | some v => if v = 0 then 1 else v

/-- Python truthiness of a nullable float column (`None` and `0.0` are falsy). -/
def truthyQ : Option ℚ → Bool
  | Option.none => false
  | some v => decide (v ≠ 0)

/-- `Quote` columns used by `calculate_costs` (quotes table). `quantity` is
`nullable=False`; the remaining numeric columns are nullable. -/
structure Quote where
  quantity : ℚ
  part_weight_g : Option ℚ
  runner_weight_g : Option ℚ
  cycle_time_seconds : Option ℚ
  cavities : Option ℤ
  material_cost_per_kg : Option ℚ
  machine_rate_per_hour : Option ℚ
  labour_rate_per_hour : Option ℚ
  setup_hours : Option ℚ
  secondary_ops_cost : Option ℚ
  overhead_percent : Option ℚ
  packaging_cost_per_part : Option ℚ
  target_margin_percent : Option ℚ

/-- The fields `Quote.calculate_costs` writes back onto the row. -/
structure QuoteCosts where
  material_cost_per_part : ℚ
  cycle_cost_per_part : ℚ
  setup_cost : ℚ
  setup_cost_per_part : ℚ
  overhead_cost_per_part : ℚ
  total_cost_per_part : ℚ
  quoted_price_per_part : ℚ
  quoted_total : ℚ

/-- `Quote.calculate_costs` (app/models/costing.py lines 264-312), translated
statement by statement. `x or 0` on nullable columns is `Option.getD 0`
(`0.0` is falsy, and `0 or 0` is `0`); `self.cavities or 1` is `effCavities`;
`self.quantity and self.quantity > 0` is `0 < quantity`; the margin uses the
explicit `is not None` check of the source, i.e. `Option.getD 30`. -/
def Quote.calculate_costs (q : Quote) : QuoteCosts :=
  let part_weight_kg := (q.part_weight_g.getD 0) / 1000
  let runner_weight_kg := (q.runner_weight_g.getD 0) / 1000
  let total_shot_weight_kg := part_weight_kg + runner_weight_kg
  let cavities : ℚ := ((effCavities q.cavities : ℤ) : ℚ)
  let material_cost_per_part := (total_shot_weight_kg / cavities) * (q.material_cost_per_kg.getD 0)
  let cycle_time_hours := (q.cycle_time_seconds.getD 0) / 3600
  let machine_cost_per_cycle := cycle_time_hours * (q.machine_rate_per_hour.getD 0)
  let labour_cost_per_cycle := cycle_time_hours * (q.labour_rate_per_hour.getD 0)
  let cycle_cost_per_part := (machine_cost_per_cycle + labour_cost_per_cycle) / cavities
  let setup_cost := (q.setup_hours.getD 0) *
    ((q.machine_rate_per_hour.getD 0) + (q.labour_rate_per_hour.getD 0))
  let setup_cost_per_part := if 0 < q.quantity then setup_cost / q.quantity else 0
  let direct_cost := material_cost_per_part + cycle_cost_per_part + setup_cost_per_part +
    (q.secondary_ops_cost.getD 0) + (q.packaging_cost_per_part.getD 0)
  let overhead_cost_per_part := direct_cost * ((q.overhead_percent.getD 0) / 100)
  let total_cost_per_part := direct_cost + overhead_cost_per_part
  let margin := q.target_margin_percent.getD 30
  let quoted_price_per_part :=
    if margin ≤ 0 then total_cost_per_part
    else if margin < 100 then total_cost_per_part / (1 - margin / 100)
    else total_cost_per_part * 2
  let quoted_total := quoted_price_per_part * q.quantity
  { material_cost_per_part := material_cost_per_part
    cycle_cost_per_part := cycle_cost_per_part
    setup_cost := setup_cost
    setup_cost_per_part := setup_cost_per_part
    overhead_cost_per_part := overhead_cost_per_part
    total_cost_per_part := total_cost_per_part
    quoted_price_per_part := quoted_price_per_part
    quoted_total := quoted_total }

/-- `Item` columns used by the costing properties, `is_low_stock` and
`total_stock` (items table). `stock_levels` holds the quantities of the
item's `StockLevel` rows. -/
structure Item where
  part_weight_grams : Option ℚ
  runner_weight_grams : Option ℚ
  cavities : Option ℤ
  material_cost_per_kg : Option ℚ
  reorder_point : Option ℚ
  min_stock_level : Option ℚ
  stock_levels : List ℚ

/-- `Item.total_stock`: `sum(sl.quantity for sl in self.stock_levels.all())`. -/
def Item.total_stock (it : Item) : ℚ := it.stock_levels.sum

/-- Python `x and x > 0` for a nullable float column. -/
def optPos : Option ℚ → Bool
  | Option.none => false
  | some v => decide (0 < v)

/-- `Item.is_low_stock` (app/models/inventory.py lines 118-127). -/
def Item.is_low_stock (it : Item) : Bool :=
  if optPos it.reorder_point then decide (it.total_stock ≤ it.reorder_point.getD 0)
  else if optPos it.min_stock_level then decide (it.total_stock ≤ it.min_stock_level.getD 0)
  else false

/-- `Item.calculated_material_cost_per_part` (app/models/inventory.py lines
134-143): `None` when `part_weight_grams` or `material_cost_per_kg` is falsy,
otherwise `(part_weight + runner_weight/(cavities or 1)) / 1000 * cost`. -/
def Item.calculated_material_cost_per_part (it : Item) : Option ℚ :=
  if !truthyQ it.part_weight_grams || !truthyQ it.material_cost_per_kg then
    Option.none
  else
    let runner_share := (it.runner_weight_grams.getD 0) / ((effCavities it.cavities : ℤ) : ℚ)
    let total_weight_g := it.part_weight_grams.getD 0 + runner_share
    some ((total_weight_g / 1000) * (it.material_cost_per_kg.getD 0))

/-! ## OEE model (app/models/oee.py) -/

/-- `ShiftLog` columns used by the OEE properties (shift_logs table). All of
these columns are nullable with defaults, so they are `Option`s here. -/
structure ShiftLog where
  planned_production_minutes : Option ℚ
  breakdown_minutes : Option ℚ
  setup_changeover_minutes : Option ℚ
  material_shortage_minutes : Option ℚ
  other_downtime_minutes : Option ℚ
  ideal_cycle_time_seconds : Option ℚ
  parts_per_cycle : Option ℤ
  total_parts_produced : Option ℤ
  good_parts : Option ℤ

/-- `ShiftLog.total_downtime_minutes`: sum of the four downtime columns. -/
def ShiftLog.total_downtime_minutes (s : ShiftLog) : ℚ :=
  (s.breakdown_minutes.getD 0) + (s.setup_changeover_minutes.getD 0) +
  (s.material_shortage_minutes.getD 0) + (s.other_downtime_minutes.getD 0)

/-- `ShiftLog.operating_time_minutes`: `(planned or 0) - total_downtime`. -/
def ShiftLog.operating_time_minutes (s : ShiftLog) : ℚ :=
  (s.planned_production_minutes.getD 0) - s.total_downtime_minutes

/-- `ShiftLog.availability_percent`: `0` when planned time is falsy or `<= 0`
(`if not self.planned_production_minutes or self.planned_production_minutes <= 0`),
otherwise operating time over planned time as a percentage. -/
def ShiftLog.availability_percent (s : ShiftLog) : ℚ :=
  match s.planned_production_minutes with
  | Option.none => 0
  | some p => if p ≤ 0 then 0 else (s.operating_time_minutes / p) * 100

/-- `ShiftLog.theoretical_output`: `0` when the ideal cycle time is falsy or
`<= 0`, otherwise `(operating minutes * 60 / cycle time) * (parts_per_cycle or 1)`. -/
def ShiftLog.theoretical_output (s : ShiftLog) : ℚ :=
  match s.ideal_cycle_time_seconds with
  | Option.none => 0
  | some ict =>
    if ict ≤ 0 then 0
    else ((s.operating_time_minutes * 60) / ict) * ((effCavities s.parts_per_cycle : ℤ) : ℚ)

/-- `ShiftLog.performance_percent`: `0` when theoretical output is `<= 0`,
otherwise actual over theoretical output as a percentage. -/
def ShiftLog.performance_percent (s : ShiftLog) : ℚ :=
  let theoretical := s.theoretical_output
  if theoretical ≤ 0 then 0
  else (((s.total_parts_produced.getD 0 : ℤ) : ℚ) / theoretical) * 100

/-- `ShiftLog.quality_percent`: `0` when total parts produced is falsy or
`<= 0`, otherwise good over total parts as a percentage. -/
def ShiftLog.quality_percent (s : ShiftLog) : ℚ :=
  match s.total_parts_produced with
  | Option.none => 0
  | some t => if t ≤ 0 then 0 else (((s.good_parts.getD 0 : ℤ) : ℚ) / (t : ℚ)) * 100

/-- `ShiftLog.oee_percent`: Availability x Performance x Quality. -/
def ShiftLog.oee_percent (s : ShiftLog) : ℚ :=
  ((s.availability_percent / 100) * (s.performance_percent / 100) *
    (s.quality_percent / 100)) * 100

/-! ## Sales-order status transitions (app/routes/orders.py lines 248-274) -/

/-- The fixed `valid_transitions` table of `update_status`; statuses not in
the table map to `[]` (`valid_transitions.get(order.status, [])`). -/
def valid_transitions (status : String) : List String :=
  if status = "new" then ["in_production", "ready_to_ship", "cancelled"]
  else if status = "in_production" then ["ready_to_ship", "new", "cancelled"]
  else if status = "ready_to_ship" then ["dispatched", "partially_shipped", "in_production"]
  else if status = "partially_shipped" then ["dispatched", "ready_to_ship"]
  else if status = "dispatched" then ["delivered"]
  else if status = "delivered" then ["archived"]
  else if status = "cancelled" then ["new", "archived"]
  else if status = "archived" then []
  else []

/-- A `SalesOrder` as far as `update_status` observes and mutates it. -/
structure SalesOrder where
  status : String

/-- `update_status`: accept and set the new status when it is listed under
the current status, otherwise flash an error and leave the order untouched.
The boolean records whether the request was accepted. -/
def update_status (o : SalesOrder) (new_status : String) : SalesOrder × Bool :=
  if new_status ∈ valid_transitions o.status then ({ status := new_status }, true)
  else (o, false)

/-! ## Stock operations (app/routes/inventory.py)

The six stock-mutating POST handlers are embedded as functions on an explicit
inventory state: the `stock_levels` table (item x location quantities; the
table has a unique constraint on the pair, and rows are updated in place) and
the append-only `stock_movements` ledger. Handler ids come from
`request.form.get(..., type=int)`; a missing field yields `None`, which the
`if not item_id ...` guards treat like `0`, so a missing id is modelled as
`0`. The `get_or_404` existence checks on the item and location rows abort
the request without touching the stock state and are not modelled. Each
handler either commits its mutation or redirects with the state unchanged. -/

/-- Python `str.strip()`: drop leading and trailing whitespace. Implemented
structurally (kernel-reducible, unlike `String.trim`). -/
def pyStrip (s : String) : String :=
  String.mk (((s.data.dropWhile Char.isWhitespace).reverse.dropWhile
    Char.isWhitespace).reverse)

/-- A `StockLevel` row (stock_levels table). -/
structure StockLevelRow where
  item_id : ℕ
  location_id : ℕ
  quantity : ℚ

/-- A `StockMovement` ledger row (stock_movements table). -/
structure StockMovementRow where
  item_id : ℕ
  movement_type : String
  quantity : ℚ
  from_location_id : Option ℕ
  to_location_id : Option ℕ

/-- The stock state the handlers read and write. -/
structure InvState where
  levels : List StockLevelRow
  movements : List StockMovementRow

/-- The empty database: no stock, no ledger entries. -/
def emptyInv : InvState := { levels := [], movements := [] }

/-- `StockLevel.query.filter_by(item_id=i, location_id=l).first()`, returning
the row's quantity. -/
def getLevelQty : List StockLevelRow → ℕ → ℕ → Option ℚ
  | [], _, _ => Option.none
  | r :: rest, i, l =>
    if r.item_id = i ∧ r.location_id = l then some r.quantity
    else getLevelQty rest i l

/-- `stock_level.quantity += q` on the existing row, or
`db.session.add(StockLevel(..., quantity=q))` when no row exists. -/
def bumpLevel : List StockLevelRow → ℕ → ℕ → ℚ → List StockLevelRow
  | [], i, l, q => [{ item_id := i, location_id := l, quantity := q }]
  | r :: rest, i, l, q =>
    if r.item_id = i ∧ r.location_id = l then
      { r with quantity := r.quantity + q } :: rest
    else r :: bumpLevel rest i l q

/-- `stock_level.quantity = new_quantity` on the existing row, or a fresh row
with that quantity when no row exists. -/
def setLevel : List StockLevelRow → ℕ → ℕ → ℚ → List StockLevelRow
  | [], i, l, q => [{ item_id := i, location_id := l, quantity := q }]
  | r :: rest, i, l, q =>
    if r.item_id = i ∧ r.location_id = l then
      { r with quantity := q } :: rest
    else r :: setLevel rest i l q

/-- `receive_stock` (lines 285-341): requires item, location and a strictly
positive quantity; adds to the stock level and records a `receipt`. -/
def receive_stock (s : InvState) (item_id location_id : ℕ) (quantity : ℚ) : InvState :=
  if item_id = 0 ∨ location_id = 0 ∨ quantity ≤ 0 then s
  else
    { levels := bumpLevel s.levels item_id location_id quantity
      movements := s.movements ++
        [{ item_id := item_id, movement_type := "receipt", quantity := quantity,
           from_location_id := Option.none, to_location_id := some location_id }] }

/-- `move_stock` (lines 344-417): rejects missing fields, non-positive
quantities, equal locations, and insufficient stock at the source; otherwise
subtracts from the source, adds to the destination, and records a `movement`
whose `quantity` field is the (positive) moved amount. -/
def move_stock (s : InvState) (item_id from_location_id to_location_id : ℕ)
    (quantity : ℚ) : InvState :=
  if item_id = 0 ∨ from_location_id = 0 ∨ to_location_id = 0 ∨ quantity ≤ 0 then s
  else if from_location_id = to_location_id then s
  else
    match getLevelQty s.levels item_id from_location_id with
    | Option.none => s
    | some from_qty =>
      if from_qty < quantity then s
      else
        { levels := bumpLevel (bumpLevel s.levels item_id from_location_id (-quantity))
            item_id to_location_id quantity
          movements := s.movements ++
            [{ item_id := item_id, movement_type := "movement", quantity := quantity,
               from_location_id := some from_location_id,
               to_location_id := some to_location_id }] }

/-- `adjust_stock` (lines 420-482): requires item, location and a non-empty
(stripped) reason, then sets the level to `new_quantity` unconditionally and
records an `adjustment` whose quantity is the signed difference. There is no
check that `new_quantity` is non-negative. -/
def adjust_stock (s : InvState) (item_id location_id : ℕ) (new_quantity : ℚ)
    (reason : String) : InvState :=
  if item_id = 0 ∨ location_id = 0 then s
  else if pyStrip reason = "" then s
  else
    let old_quantity := (getLevelQty s.levels item_id location_id).getD 0
    let adjustment := new_quantity - old_quantity
    { levels := setLevel s.levels item_id location_id new_quantity
      movements := s.movements ++
        [{ item_id := item_id, movement_type := "adjustment", quantity := adjustment,
           from_location_id := if adjustment < 0 then some location_id else Option.none,
           to_location_id := if 0 < adjustment then some location_id else Option.none }] }

/-- `quick_add_stock` (lines 666-711): same stock semantics as
`receive_stock` (positive quantity required, `receipt` recorded). -/
def quick_add_stock (s : InvState) (item_id location_id : ℕ) (quantity : ℚ) : InvState :=
  if item_id = 0 ∨ location_id = 0 ∨ quantity ≤ 0 then s
  else
    { levels := bumpLevel s.levels item_id location_id quantity
      movements := s.movements ++
        [{ item_id := item_id, movement_type := "receipt", quantity := quantity,
           from_location_id := Option.none, to_location_id := some location_id }] }

/-- `quick_remove_stock` (lines 714-758): rejects non-positive quantities and
removals exceeding the stock at the location; otherwise subtracts and records
an `adjustment` with quantity `-q`. -/
def quick_remove_stock (s : InvState) (item_id location_id : ℕ) (quantity : ℚ) : InvState :=
  if item_id = 0 ∨ location_id = 0 ∨ quantity ≤ 0 then s
  else
    match getLevelQty s.levels item_id location_id with
    | Option.none => s
    | some sq =>
      if sq < quantity then s
      else
        { levels := bumpLevel s.levels item_id location_id (-quantity)
          movements := s.movements ++
            [{ item_id := item_id, movement_type := "adjustment", quantity := -quantity,
               from_location_id := some location_id, to_location_id := Option.none }] }

/-- `quick_move_stock` (lines 761-828): same stock semantics as `move_stock`. -/
def quick_move_stock (s : InvState) (item_id from_location_id to_location_id : ℕ)
    (quantity : ℚ) : InvState :=
  if item_id = 0 ∨ from_location_id = 0 ∨ to_location_id = 0 ∨ quantity ≤ 0 then s
  else if from_location_id = to_location_id then s
  else
    match getLevelQty s.levels item_id from_location_id with
    | Option.none => s
    | some from_qty =>
      if from_qty < quantity then s
      else
        { levels := bumpLevel (bumpLevel s.levels item_id from_location_id (-quantity))
            item_id to_location_id quantity
          movements := s.movements ++
            [{ item_id := item_id, movement_type := "movement", quantity := quantity,
               from_location_id := some from_location_id,
               to_location_id := some to_location_id }] }

/-- Every stock level in the state is non-negative. -/
def invNonneg (s : InvState) : Prop :=
  ∀ r ∈ s.levels, 0 ≤ r.quantity

instance (s : InvState) : Decidable (invNonneg s) := by
  unfold invNonneg; infer_instance

/-- One request against the stock routes, for reasoning about sequences. -/
inductive StockOp where
  | receive (item_id location_id : ℕ) (quantity : ℚ)
  | move (item_id from_location_id to_location_id : ℕ) (quantity : ℚ)
  | adjust (item_id location_id : ℕ) (new_quantity : ℚ) (reason : String)
  | quickAdd (item_id location_id : ℕ) (quantity : ℚ)
  | quickRemove (item_id location_id : ℕ) (quantity : ℚ)
  | quickMove (item_id from_location_id to_location_id : ℕ) (quantity : ℚ)

/-- Dispatch one stock request to its handler. -/
def applyOp (s : InvState) : StockOp → InvState
  | StockOp.receive i l q => receive_stock s i l q
  | StockOp.move i f t q => move_stock s i f t q
  | StockOp.adjust i l q r => adjust_stock s i l q r
  | StockOp.quickAdd i l q => quick_add_stock s i l q
  | StockOp.quickRemove i l q => quick_remove_stock s i l q
  | StockOp.quickMove i f t q => quick_move_stock s i f t q

/-- Run a sequence of stock requests. -/
def applyOps (s : InvState) (ops : List StockOp) : InvState :=
  ops.foldl applyOp s

/-- `Item.total_stock` for the item with id `i` in state `s`: the sum of its
`StockLevel` quantities across locations. -/
def stockSum (i : ℕ) (s : InvState) : ℚ :=
  ((s.levels.filter (fun r => r.item_id = i)).map StockLevelRow.quantity).sum

/-- The sum of the `quantity` fields of the item's `StockMovement` rows. -/
def ledgerSum (i : ℕ) (s : InvState) : ℚ :=
  ((s.movements.filter (fun m => m.item_id = i)).map StockMovementRow.quantity).sum

/-- The same sum restricted to non-transfer entries (movement_type other than
`movement`). -/
def ledgerSumNonMove (i : ℕ) (s : InvState) : ℚ :=
  ((s.movements.filter
      (fun m => m.item_id = i ∧ m.movement_type ≠ "movement")).map
    StockMovementRow.quantity).sum

/-! ## Theorems -/

/-- Helper: outside the degenerate stored value `cavities = 0`, the Python
fallback `self.cavities or 1` agrees with "missing cavities means 1". -/
theorem effCavities_eq_getD {c : Option ℤ} (hc : c ≠ some 0) :
    effCavities c = c.getD 1 := by
  cases hq : c with
  | none => rfl
  | some v =>
    have hv : ¬ v = 0 := fun h0 => hc (by rw [hq, h0])
    simp [effCavities, hv]

/-- C1: `Quote.calculate_costs` computes the per-part and total costs by the
fixed arithmetic of the spec: material cost is the shot weight in kg divided
by cavities times the cost per kg; cycle cost is the cycle time in hours
times the sum of machine and labour rates divided by cavities; the total cost
per part is the direct cost (material + cycle + amortized setup + secondary
ops + packaging) marked up by the overhead percentage; and the quoted total
is the quoted price per part times the quantity. Missing (`None`) numeric
fields count as 0 and a missing `cavities` as 1 (the degenerate stored value
`cavities = 0` is excluded by the hypothesis). -/
theorem quote_costs_match_spec_formulas (q : Quote) (hc : q.cavities ≠ some 0) :
    (q.calculate_costs).material_cost_per_part =
      (((q.part_weight_g.getD 0) + (q.runner_weight_g.getD 0)) / 1000) /
        ((q.cavities.getD 1 : ℤ) : ℚ) * (q.material_cost_per_kg.getD 0) ∧
    (q.calculate_costs).cycle_cost_per_part =
      ((q.cycle_time_seconds.getD 0) / 3600) *
        ((q.machine_rate_per_hour.getD 0) + (q.labour_rate_per_hour.getD 0)) /
        ((q.cavities.getD 1 : ℤ) : ℚ) ∧
    (q.calculate_costs).total_cost_per_part =
      ((q.calculate_costs).material_cost_per_part + (q.calculate_costs).cycle_cost_per_part +
        (q.calculate_costs).setup_cost_per_part + (q.secondary_ops_cost.getD 0) +
        (q.packaging_cost_per_part.getD 0)) * (1 + (q.overhead_percent.getD 0) / 100) ∧
    (q.calculate_costs).quoted_total =
      (q.calculate_costs).quoted_price_per_part * q.quantity := by
  have hcav := effCavities_eq_getD hc
  unfold Quote.calculate_costs
  rw [hcav]
  refine ⟨by ring, by ring, by ring, rfl⟩

/-- The spec's worked example: part_weight_g = 45.5, runner_weight_g = 0,
cavities = 4, material_cost_per_kg = 2.50. -/
def quoteC1 : Quote :=
  { quantity := 1000, part_weight_g := some (91 / 2), runner_weight_g := some 0,
    cycle_time_seconds := some 0, cavities := some 4,
    material_cost_per_kg := some (5 / 2), machine_rate_per_hour := some 0,
    labour_rate_per_hour := some 0, setup_hours := some 0,
    secondary_ops_cost := some 0, overhead_percent := some 20,
    packaging_cost_per_part := some 0, target_margin_percent := some 30 }

/-- Witness for C1 at the spec's worked example: the computed material cost
per part is 45.5/1000/4 * 2.50 = 0.0284375 = 91/3200. -/
theorem quote_costs_match_spec_formulas_witness :
    quoteC1.cavities ≠ some 0 ∧
    (quoteC1.calculate_costs).material_cost_per_part = 284375 / 10000000 := by
  have h := (quote_costs_match_spec_formulas quoteC1 (by decide)).1
  refine ⟨by decide, ?_⟩
  rw [h]
  norm_num [quoteC1]

/-- C7: `Quote.calculate_costs` is total and never divides by zero: the
effective cavities value is never 0 (and is 1 when the column is missing),
the setup cost is amortized over the quantity only when the quantity is
positive (and is 0 per part otherwise), and the margin divisor
`1 - margin/100` is used only when `0 < margin < 100` where it is non-zero;
a margin `<= 0` leaves the price at cost and a margin `>= 100` doubles it. -/
theorem quote_costs_division_guards (q : Quote) :
    (((effCavities q.cavities : ℤ) : ℚ) ≠ 0) ∧
    (q.cavities = Option.none → effCavities q.cavities = 1) ∧
    (0 < q.quantity →
      (q.calculate_costs).setup_cost_per_part = (q.calculate_costs).setup_cost / q.quantity) ∧
    (¬ 0 < q.quantity → (q.calculate_costs).setup_cost_per_part = 0) ∧
    (q.target_margin_percent.getD 30 ≤ 0 →
      (q.calculate_costs).quoted_price_per_part = (q.calculate_costs).total_cost_per_part) ∧
    (0 < q.target_margin_percent.getD 30 → q.target_margin_percent.getD 30 < 100 →
      1 - q.target_margin_percent.getD 30 / 100 ≠ 0 ∧
      (q.calculate_costs).quoted_price_per_part =
        (q.calculate_costs).total_cost_per_part /
          (1 - q.target_margin_percent.getD 30 / 100)) ∧
    (100 ≤ q.target_margin_percent.getD 30 →
      (q.calculate_costs).quoted_price_per_part =
        (q.calculate_costs).total_cost_per_part * 2) := by
  have hcav : ((effCavities q.cavities : ℤ) : ℚ) ≠ 0 := by
    cases hq : q.cavities with
    | none => simp [effCavities]
    | some v =>
      by_cases hv : v = 0 <;> simp [effCavities, hv]
  refine ⟨hcav, ?_, ?_, ?_, ?_, ?_, ?_⟩
  · intro h; simp [effCavities, h]
  · intro h; unfold Quote.calculate_costs; simp [h]
  · intro h; unfold Quote.calculate_costs; simp [h]
  · intro h; unfold Quote.calculate_costs; simp [h]
  · intro h1 h2
    have hm : ¬ q.target_margin_percent.getD 30 ≤ 0 := not_le.mpr h1
    constructor
    · intro hz
      have : q.target_margin_percent.getD 30 = 100 := by linarith [sub_eq_zero.mp hz]
      linarith
    · unfold Quote.calculate_costs; simp [hm, h2]
  · intro h
    have hm : ¬ q.target_margin_percent.getD 30 ≤ 0 := by linarith
    have hm2 : ¬ q.target_margin_percent.getD 30 < 100 := not_lt.mpr h
    unfold Quote.calculate_costs; simp [hm, hm2]

/-- Witness for C7 at the worked-example quote (margin 30, quantity 1000):
the margin guard takes the division branch with a non-zero divisor. -/
theorem quote_costs_division_guards_witness :
    (0 : ℚ) < 1000 ∧ (0 : ℚ) < 30 ∧ (30 : ℚ) < 100 ∧
    1 - quoteC1.target_margin_percent.getD 30 / 100 ≠ 0 ∧
    (quoteC1.calculate_costs).quoted_price_per_part =
      (quoteC1.calculate_costs).total_cost_per_part /
        (1 - quoteC1.target_margin_percent.getD 30 / 100) := by
  have h := quote_costs_division_guards quoteC1
  refine ⟨by norm_num, by norm_num, by norm_num, ?_, ?_⟩
  · exact (h.2.2.2.2.2.1 (by norm_num [quoteC1]) (by norm_num [quoteC1])).1
  · exact (h.2.2.2.2.2.1 (by norm_num [quoteC1]) (by norm_num [quoteC1])).2

/-- C3: `update_status` accepts a requested status exactly when it is listed
under the order's current status in the fixed transition table; an accepted
request sets the status to the requested value, and a rejected request leaves
the order unchanged. The transition table is the one in the claim, with
`archived` allowing nothing. -/
theorem update_status_follows_table (o : SalesOrder) (new_status : String) :
    ((update_status o new_status).2 = true ↔
      new_status ∈ valid_transitions o.status) ∧
    ((update_status o new_status).2 = true →
      (update_status o new_status).1.status = new_status) ∧
    ((update_status o new_status).2 = false → (update_status o new_status).1 = o) ∧
    valid_transitions "new" = ["in_production", "ready_to_ship", "cancelled"] ∧
    valid_transitions "in_production" = ["ready_to_ship", "new", "cancelled"] ∧
    valid_transitions "ready_to_ship" = ["dispatched", "partially_shipped", "in_production"] ∧
    valid_transitions "partially_shipped" = ["dispatched", "ready_to_ship"] ∧
    valid_transitions "dispatched" = ["delivered"] ∧
    valid_transitions "delivered" = ["archived"] ∧
    valid_transitions "cancelled" = ["new", "archived"] ∧
    valid_transitions "archived" = [] := by
  unfold update_status
  by_cases h : new_status ∈ valid_transitions o.status <;>
    simp [h] <;> decide

/-- Witness for C3: from `new`, requesting `cancelled` is accepted and sets
the status; requesting `delivered` is rejected and leaves the order intact. -/
theorem update_status_follows_table_witness :
    (update_status { status := "new" } "cancelled").2 = true ∧
    (update_status { status := "new" } "cancelled").1.status = "cancelled" ∧
    (update_status { status := "new" } "delivered").2 = false ∧
    (update_status { status := "new" } "delivered").1 = { status := "new" } := by
  have h1 := update_status_follows_table { status := "new" } "cancelled"
  have h2 := update_status_follows_table { status := "new" } "delivered"
  have ha : (update_status { status := "new" } "cancelled").2 = true := by decide
  have hr : (update_status { status := "new" } "delivered").2 = false := by decide
  exact ⟨ha, h1.2.1 ha, hr, h2.2.2.1 hr⟩

/-- C10: `Item.is_low_stock` is `False` whenever both `reorder_point` and
`min_stock_level` are unset or non-positive, regardless of the stock (even at
zero); when `reorder_point > 0` it compares the total stock against the
reorder point (taking precedence over `min_stock_level`); otherwise, when
`min_stock_level > 0`, it compares against the minimum stock level. -/
theorem item_is_low_stock_cases (it : Item) :
    ((∀ v, it.reorder_point = some v → v ≤ 0) →
      (∀ v, it.min_stock_level = some v → v ≤ 0) →
      it.is_low_stock = false) ∧
    (∀ r, it.reorder_point = some r → 0 < r →
      (it.is_low_stock = true ↔ it.total_stock ≤ r)) ∧
    ((∀ v, it.reorder_point = some v → v ≤ 0) →
      ∀ m, it.min_stock_level = some m → 0 < m →
      (it.is_low_stock = true ↔ it.total_stock ≤ m)) := by
  refine ⟨?_, ?_, ?_⟩
  · intro h1 h2
    have hr : optPos it.reorder_point = false := by
      cases hq : it.reorder_point with
      | none => rfl
      | some v => simpa [optPos] using h1 v hq
    have hm : optPos it.min_stock_level = false := by
      cases hq : it.min_stock_level with
      | none => rfl
      | some v => simpa [optPos] using h2 v hq
    simp [Item.is_low_stock, hr, hm]
  · intro r hr hpos
    simp [Item.is_low_stock, hr, optPos, hpos]
  · intro h1 m hm hpos
    have hr : optPos it.reorder_point = false := by
      cases hq : it.reorder_point with
      | none => rfl
      | some v => simpa [optPos] using h1 v hq
    have ho : optPos it.min_stock_level = true := by
      rw [hm]; simp [optPos, hpos]
    unfold Item.is_low_stock
    rw [hr, ho, hm]
    simp

/-- An item with no reorder tracking set and zero stock. -/
def itemC10 : Item :=
  { part_weight_grams := Option.none, runner_weight_grams := Option.none,
    cavities := Option.none, material_cost_per_kg := Option.none,
    reorder_point := Option.none, min_stock_level := some 0, stock_levels := [] }

/-- Witness for C10: an item with `reorder_point = None` and
`min_stock_level = 0` is not flagged as low stock even at zero total stock. -/
theorem item_is_low_stock_cases_witness :
    itemC10.total_stock = 0 ∧ itemC10.is_low_stock = false := by
  have h := (item_is_low_stock_cases itemC10).1
  refine ⟨by decide, h ?_ ?_⟩
  · intro v hv; cases hv
  · intro v hv
    cases hv
    exact le_refl 0

/-- C4: the OEE percentage of a shift log is Availability x Performance x
Quality (each as a fraction) times 100, where availability is operating time
over planned time when planned time is positive (0 otherwise), performance is
actual over theoretical output when theoretical output is positive (0
otherwise, with theoretical output = operating minutes * 60 / ideal cycle
time * parts per cycle), and quality is good over total parts when total
parts is positive (0 otherwise). The hypotheses exclude the degenerate
stored values `parts_per_cycle = 0` and a negative ideal cycle time. -/
theorem shiftlog_oee_formulas (s : ShiftLog)
    (hppc : s.parts_per_cycle ≠ some 0)
    (hict : 0 ≤ s.ideal_cycle_time_seconds.getD 0) :
    s.oee_percent =
      ((s.availability_percent / 100) * (s.performance_percent / 100) *
        (s.quality_percent / 100)) * 100 ∧
    s.availability_percent =
      (if 0 < s.planned_production_minutes.getD 0 then
        ((s.planned_production_minutes.getD 0 - s.total_downtime_minutes) /
          s.planned_production_minutes.getD 0) * 100
      else 0) ∧
    s.performance_percent =
      (if 0 < (s.operating_time_minutes * 60) / (s.ideal_cycle_time_seconds.getD 0) *
          ((s.parts_per_cycle.getD 1 : ℤ) : ℚ) then
        (((s.total_parts_produced.getD 0 : ℤ) : ℚ) /
          ((s.operating_time_minutes * 60) / (s.ideal_cycle_time_seconds.getD 0) *
            ((s.parts_per_cycle.getD 1 : ℤ) : ℚ))) * 100
      else 0) ∧
    s.quality_percent =
      (if 0 < ((s.total_parts_produced.getD 0 : ℤ) : ℚ) then
        (((s.good_parts.getD 0 : ℤ) : ℚ) / ((s.total_parts_produced.getD 0 : ℤ) : ℚ)) * 100
      else 0) := by
  have hcav := effCavities_eq_getD hppc
  refine ⟨rfl, ?_, ?_, ?_⟩
  · unfold ShiftLog.availability_percent ShiftLog.operating_time_minutes
    cases hp : s.planned_production_minutes with
    | none => norm_num
    | some p =>
      simp only [Option.getD_some]
      split_ifs with h1 h2 <;> first | rfl | linarith
  · unfold ShiftLog.performance_percent ShiftLog.theoretical_output
    rw [hcav]
    cases hi : s.ideal_cycle_time_seconds with
    | none => simp
    | some x =>
      rw [hi] at hict
      simp only [Option.getD_some] at hict ⊢
      rcases eq_or_lt_of_le hict with h0 | h0
      · simp [← h0]
      · have hx : ¬ x ≤ 0 := not_le.mpr h0
        simp only [hx, if_false]
        split_ifs with h1 h2 <;> first | rfl | linarith
  · unfold ShiftLog.quality_percent
    cases ht : s.total_parts_produced with
    | none => simp
    | some t =>
      simp only [Option.getD_some]
      rcases le_or_lt t 0 with h1 | h1
      · have h2 : ¬ (0 : ℚ) < (t : ℚ) := by exact_mod_cast not_lt.mpr h1
        simp [h1, h2]
      · have h2 : (0 : ℚ) < (t : ℚ) := by exact_mod_cast h1
        have h1' : ¬ t ≤ 0 := not_le.mpr h1
        simp [h1', h2]

/-- A concrete shift log: 480 planned minutes, 30 minutes breakdown, ideal
30-second cycle with 2 cavities, 1700 parts of which 1650 good. -/
def logC4 : ShiftLog :=
  { planned_production_minutes := some 480, breakdown_minutes := some 30,
    setup_changeover_minutes := some 0, material_shortage_minutes := some 0,
    other_downtime_minutes := some 0, ideal_cycle_time_seconds := some 30,
    parts_per_cycle := some 2, total_parts_produced := some 1700,
    good_parts := some 1650 }

/-- Witness for C4 at the concrete shift log. -/
theorem shiftlog_oee_formulas_witness :
    logC4.parts_per_cycle ≠ some 0 ∧
    (0 : ℚ) ≤ logC4.ideal_cycle_time_seconds.getD 0 ∧
    logC4.oee_percent =
      ((logC4.availability_percent / 100) * (logC4.performance_percent / 100) *
        (logC4.quality_percent / 100)) * 100 := by
  refine ⟨by decide, by norm_num [logC4], ?_⟩
  exact (shiftlog_oee_formulas logC4 (by decide) (by norm_num [logC4])).1

/-- A quote with part weight 10 g, runner weight 4 g, 2 cavities and a
material cost of 1 per kg. -/
def quoteC9 : Quote :=
  { quantity := 100, part_weight_g := some 10, runner_weight_g := some 4,
    cycle_time_seconds := some 0, cavities := some 2, material_cost_per_kg := some 1,
    machine_rate_per_hour := some 0, labour_rate_per_hour := some 0,
    setup_hours := some 0, secondary_ops_cost := some 0, overhead_percent := some 20,
    packaging_cost_per_part := some 0, target_margin_percent := some 30 }

/-- An item with the same part weight, runner weight, cavities and material
cost as `quoteC9`. -/
def itemC9 : Item :=
  { part_weight_grams := some 10, runner_weight_grams := some 4, cavities := some 2,
    material_cost_per_kg := some 1, reorder_point := Option.none,
    min_stock_level := Option.none, stock_levels := [] }

/-- C9 counterexample: with part weight 10 g, runner weight 4 g, 2 cavities
and material cost 1 per kg (all present and positive), the quote calculator
divides the whole shot weight by the cavities, giving 7/1000, while the item
property divides only the runner share, giving 12/1000 = 3/250 — the two
material-cost formulas disagree. -/
theorem quote_item_material_cost_counterexample :
    (quoteC9.calculate_costs).material_cost_per_part = 7 / 1000 ∧
    itemC9.calculated_material_cost_per_part = some (3 / 250) ∧
    itemC9.calculated_material_cost_per_part ≠
      some ((quoteC9.calculate_costs).material_cost_per_part) := by
  refine ⟨?_, ?_, ?_⟩ <;>
    norm_num [Quote.calculate_costs, Item.calculated_material_cost_per_part,
      quoteC9, itemC9, effCavities, truthyQ]

/-- C9 amended: for an item and a quote with the same present-and-positive
part weight, runner weight and material cost per kg, and a single cavity,
`Quote.calculate_costs` and `Item.calculated_material_cost_per_part` compute
the same material cost per part. (With more than one cavity they differ: the
quote divides the part weight by the cavities as well, the item only the
runner share.) -/
theorem quote_item_material_cost_single_cavity (q : Quote) (it : Item) (pw rw mck : ℚ)
    (hq1 : q.part_weight_g = some pw) (hi1 : it.part_weight_grams = some pw)
    (hq2 : q.runner_weight_g = some rw) (hi2 : it.runner_weight_grams = some rw)
    (hqc : q.cavities = some 1) (hic : it.cavities = some 1)
    (hq3 : q.material_cost_per_kg = some mck) (hi3 : it.material_cost_per_kg = some mck)
    (hpw : 0 < pw) (hrw : 0 < rw) (hmck : 0 < mck) :
    it.calculated_material_cost_per_part =
      some ((q.calculate_costs).material_cost_per_part) := by
  have hpw' : pw ≠ 0 := ne_of_gt hpw
  have hmck' : mck ≠ 0 := ne_of_gt hmck
  unfold Item.calculated_material_cost_per_part Quote.calculate_costs
  rw [hi1, hi2, hic, hi3, hq1, hq2, hqc, hq3]
  have h1 : truthyQ (some pw) = true := by simp [truthyQ, hpw']
  have h2 : truthyQ (some mck) = true := by simp [truthyQ, hmck']
  have hec : effCavities (some 1) = 1 := rfl
  rw [h1, h2, hec]
  norm_num
  exact Or.inl (by ring)

/-- The single-cavity versions of `quoteC9` and `itemC9`. -/
def quoteC9b : Quote :=
  { quoteC9 with cavities := some 1 }

/-- The single-cavity version of `itemC9`. -/
def itemC9b : Item :=
  { itemC9 with cavities := some 1 }

/-- Witness for the amended C9 at a single-cavity part: both formulas give
(10 + 4)/1000 * 1 = 7/500. -/
theorem quote_item_material_cost_single_cavity_witness :
    itemC9b.calculated_material_cost_per_part =
      some ((quoteC9b.calculate_costs).material_cost_per_part) ∧
    itemC9b.calculated_material_cost_per_part = some (7 / 500) := by
  refine ⟨quote_item_material_cost_single_cavity quoteC9b itemC9b 10 4 1
    rfl rfl rfl rfl rfl rfl rfl rfl (by norm_num) (by norm_num) (by norm_num), ?_⟩
  norm_num [Item.calculated_material_cost_per_part, itemC9b, itemC9, effCavities, truthyQ]

/-- Adding a non-negative quantity (or creating a fresh row with it) keeps
all stock levels non-negative. -/
theorem bumpLevel_nonneg {ls : List StockLevelRow} {i l : ℕ} {q : ℚ}
    (h : ∀ r ∈ ls, 0 ≤ r.quantity) (hq : 0 ≤ q) :
    ∀ r ∈ bumpLevel ls i l q, 0 ≤ r.quantity := by
  induction ls with
  | nil =>
    intro r hr
    simp only [bumpLevel, List.mem_singleton] at hr
    subst hr; exact hq
  | cons r' rest ih =>
    intro r hr
    by_cases hc : r'.item_id = i ∧ r'.location_id = l
    · simp only [bumpLevel, if_pos hc, List.mem_cons] at hr
      rcases hr with hr | hr
      · subst hr
        exact add_nonneg (h r' (List.mem_cons_self r' rest)) hq
      · exact h r (List.mem_cons_of_mem r' hr)
    · simp only [bumpLevel, if_neg hc, List.mem_cons] at hr
      rcases hr with hr | hr
      · subst hr; exact h r (List.mem_cons_self r rest)
      · exact ih (fun x hx => h x (List.mem_cons_of_mem r' hx)) r hr

/-- Subtracting no more than the quantity found at the (item, location) pair
keeps all stock levels non-negative. -/
theorem bumpLevel_sub_nonneg {ls : List StockLevelRow} {i l : ℕ} {q fq : ℚ}
    (h : ∀ r ∈ ls, 0 ≤ r.quantity) (hfind : getLevelQty ls i l = some fq)
    (hle : q ≤ fq) :
    ∀ r ∈ bumpLevel ls i l (-q), 0 ≤ r.quantity := by
  induction ls with
  | nil => simp [getLevelQty] at hfind
  | cons r' rest ih =>
    intro r hr
    by_cases hc : r'.item_id = i ∧ r'.location_id = l
    · have hfq : fq = r'.quantity := by
        simp only [getLevelQty, if_pos hc] at hfind
        exact (Option.some.injEq _ _ ▸ hfind).symm
      simp only [bumpLevel, if_pos hc, List.mem_cons] at hr
      rcases hr with hr | hr
      · subst hr
        simp only
        rw [hfq] at hle
        linarith
      · exact h r (List.mem_cons_of_mem r' hr)
    · simp only [getLevelQty, if_neg hc] at hfind
      simp only [bumpLevel, if_neg hc, List.mem_cons] at hr
      rcases hr with hr | hr
      · subst hr; exact h r (List.mem_cons_self r rest)
      · exact ih (fun x hx => h x (List.mem_cons_of_mem r' hx)) hfind r hr

/-- Setting a level to a non-negative quantity keeps all levels non-negative. -/
theorem setLevel_nonneg {ls : List StockLevelRow} {i l : ℕ} {nq : ℚ}
    (h : ∀ r ∈ ls, 0 ≤ r.quantity) (hnq : 0 ≤ nq) :
    ∀ r ∈ setLevel ls i l nq, 0 ≤ r.quantity := by
  induction ls with
  | nil =>
    intro r hr
    simp only [setLevel, List.mem_singleton] at hr
    subst hr; exact hnq
  | cons r' rest ih =>
    intro r hr
    by_cases hc : r'.item_id = i ∧ r'.location_id = l
    · simp only [setLevel, if_pos hc, List.mem_cons] at hr
      rcases hr with hr | hr
      · subst hr; exact hnq
      · exact h r (List.mem_cons_of_mem r' hr)
    · simp only [setLevel, if_neg hc, List.mem_cons] at hr
      rcases hr with hr | hr
      · subst hr; exact h r (List.mem_cons_self r rest)
      · exact ih (fun x hx => h x (List.mem_cons_of_mem r' hx)) r hr

/-- The state produced by `adjust_stock` on an empty database with a
requested quantity of -5. -/
def advC5 : InvState := adjust_stock emptyInv 1 1 (-5) "cycle count"

/-- C5 counterexample: from an all-non-negative state (the empty database),
`adjust_stock` with `new_quantity = -5` — which no guard prevents — produces
a stock level of -5, so the stock-mutating operations do not all preserve
non-negativity. -/
theorem adjust_stock_negative_counterexample :
    invNonneg emptyInv ∧
    advC5.levels = [{ item_id := 1, location_id := 1, quantity := -5 }] ∧
    ¬ invNonneg advC5 := by
  have hlv : advC5.levels = [{ item_id := 1, location_id := 1, quantity := -5 }] := by
    norm_num [advC5, adjust_stock, emptyInv, setLevel, getLevelQty]
    rw [if_neg (by decide)]
  refine ⟨fun r hr => by simp [emptyInv] at hr, hlv, fun h => ?_⟩
  have := h { item_id := 1, location_id := 1, quantity := -5 } (by rw [hlv]; simp)
  norm_num at this

/-- C5 amended: every stock-mutating handler except `adjust_stock` preserves
non-negativity of all stock levels unconditionally, and `adjust_stock`
preserves it whenever the requested `new_quantity` is non-negative (an
explicitly negative adjustment can drive a level negative); moves and
removals whose quantity exceeds the stock at the source location are rejected
with the state unchanged, and receipts/quick adds with a non-positive
quantity are rejected with the state unchanged. -/
theorem stock_ops_preserve_nonneg (s : InvState) (hs : invNonneg s) :
    (∀ i l q, invNonneg (receive_stock s i l q)) ∧
    (∀ i f t q, invNonneg (move_stock s i f t q)) ∧
    (∀ i l nq reason, 0 ≤ nq → invNonneg (adjust_stock s i l nq reason)) ∧
    (∀ i l q, invNonneg (quick_add_stock s i l q)) ∧
    (∀ i l q, invNonneg (quick_remove_stock s i l q)) ∧
    (∀ i f t q, invNonneg (quick_move_stock s i f t q)) ∧
    (∀ i f t q, (getLevelQty s.levels i f).getD 0 < q → move_stock s i f t q = s) ∧
    (∀ i l q, (getLevelQty s.levels i l).getD 0 < q → quick_remove_stock s i l q = s) ∧
    (∀ i f t q, (getLevelQty s.levels i f).getD 0 < q → quick_move_stock s i f t q = s) ∧
    (∀ i l q, q ≤ 0 → receive_stock s i l q = s) ∧
    (∀ i l q, q ≤ 0 → quick_add_stock s i l q = s) := by
  refine ⟨?_, ?_, ?_, ?_, ?_, ?_, ?_, ?_, ?_, ?_, ?_⟩
  · intro i l q
    unfold receive_stock
    split_ifs with h
    · exact hs
    · push_neg at h
      exact bumpLevel_nonneg hs (le_of_lt h.2.2)
  · intro i f t q
    unfold move_stock
    split_ifs with h1 h2
    · exact hs
    · exact hs
    · push_neg at h1
      cases hfind : getLevelQty s.levels i f with
      | none => exact hs
      | some fq =>
        simp only
        split_ifs with h3
        · exact hs
        · exact bumpLevel_nonneg
            (bumpLevel_sub_nonneg hs hfind (le_of_not_lt h3))
            (le_of_lt h1.2.2.2)
  · intro i l nq reason hnq
    unfold adjust_stock
    split_ifs with h1 h2
    · exact hs
    · exact hs
    · exact setLevel_nonneg hs hnq
  · intro i l q
    unfold quick_add_stock
    split_ifs with h
    · exact hs
    · push_neg at h
      exact bumpLevel_nonneg hs (le_of_lt h.2.2)
  · intro i l q
    unfold quick_remove_stock
    split_ifs with h1
    · exact hs
    · cases hfind : getLevelQty s.levels i l with
      | none => exact hs
      | some sq =>
        simp only
        split_ifs with h2
        · exact hs
        · exact bumpLevel_sub_nonneg hs hfind (le_of_not_lt h2)
  · intro i f t q
    unfold quick_move_stock
    split_ifs with h1 h2
    · exact hs
    · exact hs
    · push_neg at h1
      cases hfind : getLevelQty s.levels i f with
      | none => exact hs
      | some fq =>
        simp only
        split_ifs with h3
        · exact hs
        · exact bumpLevel_nonneg
            (bumpLevel_sub_nonneg hs hfind (le_of_not_lt h3))
            (le_of_lt h1.2.2.2)
  · intro i f t q hlt
    unfold move_stock
    split_ifs with h1 h2
    · rfl
    · rfl
    · cases hfind : getLevelQty s.levels i f with
      | none => rfl
      | some fq =>
        rw [hfind] at hlt
        simp only [Option.getD_some] at hlt
        simp [hlt]
  · intro i l q hlt
    unfold quick_remove_stock
    split_ifs with h1
    · rfl
    · cases hfind : getLevelQty s.levels i l with
      | none => rfl
      | some sq =>
        rw [hfind] at hlt
        simp only [Option.getD_some] at hlt
        simp [hlt]
  · intro i f t q hlt
    unfold quick_move_stock
    split_ifs with h1 h2
    · rfl
    · rfl
    · cases hfind : getLevelQty s.levels i f with
      | none => rfl
      | some fq =>
        rw [hfind] at hlt
        simp only [Option.getD_some] at hlt
        simp [hlt]
  · intro i l q hq
    unfold receive_stock
    simp [hq]
  · intro i l q hq
    unfold quick_add_stock
    simp [hq]

/-- Witness for the amended C5 at the empty database. -/
theorem stock_ops_preserve_nonneg_witness :
    invNonneg emptyInv ∧
    invNonneg (receive_stock emptyInv 1 1 5) ∧
    invNonneg (adjust_stock emptyInv 1 1 5 "count") := by
  have h0 : invNonneg emptyInv := fun r hr => by simp [emptyInv] at hr
  have h := stock_ops_preserve_nonneg emptyInv h0
  exact ⟨h0, h.1 1 1 5, h.2.2.1 1 1 5 "count" (by norm_num)⟩

/-- Effect of `bumpLevel` on an item's total stock: it grows by `q` exactly
when the bumped item is the one being summed. -/
theorem levelsSum_bumpLevel (ls : List StockLevelRow) (i' l : ℕ) (q : ℚ) (i : ℕ) :
    (((bumpLevel ls i' l q).filter (fun r => r.item_id = i)).map
        StockLevelRow.quantity).sum =
      ((ls.filter (fun r => r.item_id = i)).map StockLevelRow.quantity).sum +
        (if i' = i then q else 0) := by
  induction ls with
  | nil => by_cases hi : i' = i <;> simp [bumpLevel, hi]
  | cons r rest ih =>
    by_cases hc : r.item_id = i' ∧ r.location_id = l
    · simp only [bumpLevel, if_pos hc]
      by_cases hri : r.item_id = i
      · have hii : i' = i := hc.1.symm.trans hri
        simp [List.filter_cons, hri, hii]
        ring
      · have hii : ¬ i' = i := fun h => hri (hc.1.trans h)
        simp [List.filter_cons, hri, hii]
    · simp only [bumpLevel, if_neg hc]
      by_cases hri : r.item_id = i <;> simp [List.filter_cons, hri, ih] <;> ring

/-- Effect of `setLevel` on an item's total stock: the first matching row's
quantity is replaced, so the total changes by the difference to the previous
quantity at that (item, location) pair. -/
theorem levelsSum_setLevel (ls : List StockLevelRow) (i' l : ℕ) (nq : ℚ) (i : ℕ) :
    (((setLevel ls i' l nq).filter (fun r => r.item_id = i)).map
        StockLevelRow.quantity).sum =
      ((ls.filter (fun r => r.item_id = i)).map StockLevelRow.quantity).sum +
        (if i' = i then nq - (getLevelQty ls i' l).getD 0 else 0) := by
  induction ls with
  | nil => by_cases hi : i' = i <;> simp [setLevel, getLevelQty, hi]
  | cons r rest ih =>
    by_cases hc : r.item_id = i' ∧ r.location_id = l
    · simp only [setLevel, getLevelQty, if_pos hc]
      by_cases hri : r.item_id = i
      · have hii : i' = i := hc.1.symm.trans hri
        simp [List.filter_cons, hri, hii]
        ring
      · have hii : ¬ i' = i := fun h => hri (hc.1.trans h)
        simp [List.filter_cons, hri, hii]
    · simp only [setLevel, getLevelQty, if_neg hc]
      by_cases hri : r.item_id = i <;> simp [List.filter_cons, hri, ih] <;> ring

/-- Appending one ledger entry adds its quantity to a filtered ledger sum
exactly when the entry satisfies the filter. -/
theorem ledgerSum_filter_append (ms : List StockMovementRow) (m : StockMovementRow)
    (p : StockMovementRow → Bool) :
    (((ms ++ [m]).filter p).map StockMovementRow.quantity).sum =
      ((ms.filter p).map StockMovementRow.quantity).sum +
        (if p m then m.quantity else 0) := by
  by_cases hp : p m <;> simp [List.filter_append, hp]

/-- Each stock handler changes the non-transfer ledger sum and the stock
total of every item by the same amount. -/
theorem applyOp_preserves_ledger (s : InvState) (op : StockOp)
    (hs : ∀ j, ledgerSumNonMove j s = stockSum j s) (j : ℕ) :
    ledgerSumNonMove j (applyOp s op) = stockSum j (applyOp s op) := by
  cases op with
  | receive i l q =>
    show ledgerSumNonMove j (receive_stock s i l q) = stockSum j (receive_stock s i l q)
    unfold receive_stock
    split_ifs with h
    · exact hs j
    · unfold ledgerSumNonMove stockSum
      simp only
      rw [levelsSum_bumpLevel, ledgerSum_filter_append]
      have := hs j
      unfold ledgerSumNonMove stockSum at this
      rw [this]
      by_cases hij : i = j <;> simp [hij]
  | move i f t q =>
    show ledgerSumNonMove j (move_stock s i f t q) = stockSum j (move_stock s i f t q)
    unfold move_stock
    split_ifs with h1 h2
    · exact hs j
    · exact hs j
    · cases hfind : getLevelQty s.levels i f with
      | none => exact hs j
      | some fq =>
        simp only
        split_ifs with h3
        · exact hs j
        · unfold ledgerSumNonMove stockSum
          simp only
          rw [levelsSum_bumpLevel, levelsSum_bumpLevel, ledgerSum_filter_append]
          have := hs j
          unfold ledgerSumNonMove stockSum at this
          rw [this]
          by_cases hij : i = j <;> simp [hij]
  | adjust i l nq reason =>
    show ledgerSumNonMove j (adjust_stock s i l nq reason) =
      stockSum j (adjust_stock s i l nq reason)
    unfold adjust_stock
    split_ifs with h1 h2
    · exact hs j
    · exact hs j
    · unfold ledgerSumNonMove stockSum
      simp only
      rw [levelsSum_setLevel, ledgerSum_filter_append]
      have := hs j
      unfold ledgerSumNonMove stockSum at this
      rw [this]
      by_cases hij : i = j <;> simp [hij]
  | quickAdd i l q =>
    show ledgerSumNonMove j (quick_add_stock s i l q) = stockSum j (quick_add_stock s i l q)
    unfold quick_add_stock
    split_ifs with h
    · exact hs j
    · unfold ledgerSumNonMove stockSum
      simp only
      rw [levelsSum_bumpLevel, ledgerSum_filter_append]
      have := hs j
      unfold ledgerSumNonMove stockSum at this
      rw [this]
      by_cases hij : i = j <;> simp [hij]
  | quickRemove i l q =>
    show ledgerSumNonMove j (quick_remove_stock s i l q) =
      stockSum j (quick_remove_stock s i l q)
    unfold quick_remove_stock
    split_ifs with h1
    · exact hs j
    · cases hfind : getLevelQty s.levels i l with
      | none => exact hs j
      | some sq =>
        simp only
        split_ifs with h2
        · exact hs j
        · unfold ledgerSumNonMove stockSum
          simp only
          rw [levelsSum_bumpLevel, ledgerSum_filter_append]
          have := hs j
          unfold ledgerSumNonMove stockSum at this
          rw [this]
          by_cases hij : i = j <;> simp [hij]
  | quickMove i f t q =>
    show ledgerSumNonMove j (quick_move_stock s i f t q) =
      stockSum j (quick_move_stock s i f t q)
    unfold quick_move_stock
    split_ifs with h1 h2
    · exact hs j
    · exact hs j
    · cases hfind : getLevelQty s.levels i f with
      | none => exact hs j
      | some fq =>
        simp only
        split_ifs with h3
        · exact hs j
        · unfold ledgerSumNonMove stockSum
          simp only
          rw [levelsSum_bumpLevel, levelsSum_bumpLevel, ledgerSum_filter_append]
          have := hs j
          unfold ledgerSumNonMove stockSum at this
          rw [this]
          by_cases hij : i = j <;> simp [hij]

/-- The state after receiving 10 at location 1 and moving 4 of them to
location 2, starting from the empty database. -/
def invC6 : InvState :=
  applyOps emptyInv [StockOp.receive 1 1 10, StockOp.move 1 1 2 4]

/-- C6 counterexample: starting from zero stock and an empty ledger, after a
receipt of 10 and a transfer of 4 the item's ledger quantities sum to
10 + 4 = 14 while its total stock is 10: a transfer appends a
positive-quantity `movement` entry without changing the total, so the sum of
all ledger quantities does not equal the current total stock. -/
theorem ledger_sum_counterexample :
    stockSum 1 invC6 = 10 ∧ ledgerSum 1 invC6 = 14 ∧
    ledgerSum 1 invC6 ≠ stockSum 1 invC6 := by
  have h : invC6 =
      { levels := [⟨1, 1, 6⟩, ⟨1, 2, 4⟩],
        movements := [⟨1, "receipt", 10, Option.none, some 1⟩,
          ⟨1, "movement", 4, some 1, some 2⟩] } := by
    norm_num [invC6, applyOps, applyOp, List.foldl, receive_stock, move_stock,
      emptyInv, bumpLevel, getLevelQty]
  rw [h]
  norm_num [stockSum, ledgerSum, List.filter]

/-- C6 amended: starting from zero stock and an empty movement ledger, after
any sequence of stock operations the sum of the quantity fields of the
item's ledger entries other than transfers (movement_type `movement`) equals
the item's current total stock summed across locations. (Transfer entries
record the moved amount as a positive quantity while leaving the total
unchanged, so they must be excluded; with them the equality fails.) -/
theorem ledger_nonmove_sum_eq_total_stock (ops : List StockOp) (i : ℕ) :
    ledgerSumNonMove i (applyOps emptyInv ops) =
      stockSum i (applyOps emptyInv ops) := by
  suffices h : ∀ s, (∀ j, ledgerSumNonMove j s = stockSum j s) →
      ∀ j, ledgerSumNonMove j (applyOps s ops) = stockSum j (applyOps s ops) by
    refine h emptyInv (fun j => ?_) i
    simp [ledgerSumNonMove, stockSum, emptyInv]
  induction ops with
  | nil => intro s hs j; exact hs j
  | cons op rest ih =>
    intro s hs j
    exact ih (applyOp s op) (fun k => applyOp_preserves_ledger s op hs k) j

/-! ## CSV import (app/routes/data_management.py)

The import handlers are plain Python over SQLAlchemy declarative models, and
several of them reference attributes that do not exist on the models (the
handlers were written against a different schema). Their behaviour therefore
depends on Python/SQLAlchemy attribute semantics, which are modelled
explicitly:

* an ORM instance is an attribute map (`PyObj`); reading an attribute that
  is not present raises `AttributeError`, while `setattr` always succeeds
  (a non-column attribute becomes a stray instance attribute);
* the declarative constructor `Model(**kwargs)` raises `TypeError` when any
  keyword is not an attribute of the model class;
* `Model.query.filter_by(attr=v)` raises when `attr` is not a mapped
  attribute of the model.

Rows come from `csv.DictReader`: every value is a string, and a missing
column reads as `None` (here: a failed lookup). `float(...)`/`int(...)` are
modelled for the plain decimal/integer literals these CSV fields hold; any
other string raises `ValueError`. Exceptions carry only a message string. -/

/-- A Python value as stored in an ORM instance attribute. -/
inductive PyVal where
  | none
  | str (s : String)
  | num (q : ℚ)
  | int (n : ℤ)
  | bool (b : Bool)
  | dt
deriving DecidableEq

/-- Python truthiness of a `PyVal` (`None`, `''`, `0`, `0.0`, `False` are
falsy; a datetime is truthy). -/
def PyVal.truthy : PyVal → Bool
  | PyVal.none => false
  | PyVal.str s => decide (s ≠ "")
  | PyVal.num q => decide (q ≠ 0)
  | PyVal.int n => decide (n ≠ 0)
  | PyVal.bool b => b
  | PyVal.dt => true

/-- A raised Python exception, reduced to its message. -/
abbrev PyErr := String

/-- An ORM instance: its instance attributes. -/
abbrev PyObj := List (String × PyVal)

/-- `getattr`: raises `AttributeError` when the attribute is absent. -/
def pyGet (o : PyObj) (k : String) : Except PyErr PyVal :=
  match o.lookup k with
  | some v => Except.ok v
  | Option.none => Except.error ("AttributeError: " ++ k)

/-- `setattr`: always succeeds (replaces or adds the attribute). -/
def pySet : PyObj → String → PyVal → PyObj
  | [], k, v => [(k, v)]
  | (k', v') :: rest, k, v =>
    if k' = k then (k, v) :: rest else (k', v') :: pySet rest k v

/-- The declarative constructor `Model(**kwargs)`: raises `TypeError` when a
keyword is not an attribute of the model class. -/
def pyNew (attrs : List String) (kwargs : List (String × PyVal)) :
    Except PyErr PyObj :=
  if kwargs.all (fun kv => attrs.contains kv.1) then Except.ok kwargs
  else Except.error "TypeError: invalid keyword argument"

/-- A CSV row from `csv.DictReader` (column name to string value). -/
abbrev Row := List (String × String)

/-- `row.get(k)`. -/
def rowGet (row : Row) (k : String) : Option String := row.lookup k

/-- `row.get(k, '').strip()`. -/
def rowGetStripped (row : Row) (k : String) : String :=
  pyStrip ((rowGet row k).getD "")

/-- Python `str.upper()`. -/
def pyUpper (s : String) : String := String.mk (s.data.map Char.toUpper)

/-- Decimal digit value of a character. -/
def charDigit? (c : Char) : Option ℕ :=
  if c.isDigit then some (c.toNat - 48) else Option.none

/-- Read a digit string left to right; fails on a non-digit. -/
def digitsToNat : List Char → ℕ → Option ℕ
  | [], acc => some acc
  | c :: cs, acc =>
    match charDigit? c with
    | some d => digitsToNat cs (acc * 10 + d)
    | Option.none => Option.none

/-- Python `int(s)` on a plain integer literal: optional sign and a
non-empty digit string (surrounding whitespace allowed); anything else
raises `ValueError`. -/
def pyParseInt (s : String) : Option ℤ :=
  let cs := (pyStrip s).data
  let p : ℤ × List Char :=
    match cs with
    | '-' :: rest => (-1, rest)
    | '+' :: rest => (1, rest)
    | _ => (1, cs)
  if p.2 = [] then Option.none
  else
    match digitsToNat p.2 0 with
    | some n => some (p.1 * n)
    | Option.none => Option.none

/-- Python `float(s)` on a plain decimal literal: optional sign, digits and
an optional fractional part (surrounding whitespace allowed); anything else
raises `ValueError`. -/
def pyParseFloat (s : String) : Option ℚ :=
  let cs := (pyStrip s).data
  let p : ℚ × List Char :=
    match cs with
    | '-' :: rest => (-1, rest)
    | '+' :: rest => (1, rest)
    | _ => (1, cs)
  let ip := p.2.takeWhile Char.isDigit
  let rest := p.2.dropWhile Char.isDigit
  match rest with
  | [] =>
    if ip = [] then Option.none
    else
      match digitsToNat ip 0 with
      | some n => some (p.1 * (n : ℚ))
      | Option.none => Option.none
  | '.' :: fp =>
    if ip = [] ∧ fp = [] then Option.none
    else if fp.all Char.isDigit then
      match digitsToNat ip 0, digitsToNat fp 0 with
      | some n, some f =>
        some (p.1 * ((n : ℚ) + (f : ℚ) / (10 : ℚ) ^ fp.length))
      | _, _ => Option.none
    else Option.none
  | _ => Option.none

/-- `float(row.get(k) or 0)`: a missing or empty (falsy) field is `0`;
otherwise the string must parse or `ValueError` is raised. -/
def rowFloatOr0 (row : Row) (k : String) : Except PyErr ℚ :=
  match rowGet row k with
  | Option.none => Except.ok 0
  | some s =>
    if s = "" then Except.ok 0
    else
      match pyParseFloat s with
      | some q => Except.ok q
      | Option.none => Except.error "ValueError: could not convert string to float"

/-- `int(row.get(k) or 0)`. -/
def rowIntOr0 (row : Row) (k : String) : Except PyErr ℤ :=
  match rowGet row k with
  | Option.none => Except.ok 0
  | some s =>
    if s = "" then Except.ok 0
    else
      match pyParseInt s with
      | some n => Except.ok n
      | Option.none => Except.error "ValueError: invalid literal for int"

/-- `s or None` for a stripped string. -/
def strOrNone (s : String) : PyVal :=
  if s = "" then PyVal.none else PyVal.str s

/-- `s or default` for a stripped string. -/
def strOrDefault (s d : String) : PyVal :=
  PyVal.str (if s = "" then d else s)

/-- `q or None` for a parsed float. -/
def numOrNone (q : ℚ) : PyVal :=
  if q = 0 then PyVal.none else PyVal.num q

/-- `n or None` for a parsed int. -/
def intOrNone (n : ℤ) : PyVal :=
  if n = 0 then PyVal.none else PyVal.int n

/-- `float(row.get(k) or 0) or None` as a kwarg value. -/
def floatOrNoneE (row : Row) (k : String) : Except PyErr PyVal := do
  let q ← rowFloatOr0 row k
  Except.ok (numOrNone q)

/-- `int(row.get(k) or 0) or None` as a kwarg value. -/
def intOrNoneE (row : Row) (k : String) : Except PyErr PyVal := do
  let n ← rowIntOr0 row k
  Except.ok (intOrNone n)

/-- `int(row.get(k) or 0) or d` as a kwarg value. -/
def intOrDefaultE (row : Row) (k : String) (d : ℤ) : Except PyErr PyVal := do
  let n ← rowIntOr0 row k
  Except.ok (PyVal.int (if n = 0 then d else n))

/-- Evaluate constructor keyword values in source order (a `ValueError` from
a parse is raised before the constructor itself runs). -/
def evalKwargs : List (String × Except PyErr PyVal) →
    Except PyErr (List (String × PyVal))
  | [] => Except.ok []
  | (k, ev) :: rest => do
    let v ← ev
    let vs ← evalKwargs rest
    Except.ok ((k, v) :: vs)

/-- `Model.query.filter_by(k=v).first()` over a table of rows, also
returning the row's index so updates can be written back. Raises when `k` is
not an attribute of the model class. -/
def queryFilterByIdx (attrs : List String) (objs : List PyObj) (k : String)
    (v : PyVal) : Except PyErr (Option (ℕ × PyObj)) :=
  if attrs.contains k then
    Except.ok (match objs.findIdx? (fun o => o.lookup k == some v) with
      | some i => (objs.get? i).map (fun o => (i, o))
      | Option.none => Option.none)
  else Except.error ("InvalidRequestError: no attribute " ++ k)

/-- Run a sequence of attribute updates on an ORM instance. On an exception
the updates already applied are kept (the session keeps partial mutations),
and the exception is reported alongside the partially updated object. -/
def applyUpdates (o : PyObj) :
    List (PyObj → Except PyErr PyObj) → PyObj × Option PyErr
  | [] => (o, Option.none)
  | act :: rest =>
    match act o with
    | Except.ok o' => applyUpdates o' rest
    | Except.error e => (o, some e)

/-- `obj.f = v` (plain assignment; always succeeds). -/
def setAttr (f : String) (v : PyVal) (o : PyObj) : Except PyErr PyObj :=
  Except.ok (pySet o f v)

/-- `obj.f = v or obj.f`: when `v` is falsy the current value is read back
(raising `AttributeError` when the attribute does not exist). -/
def setOr (f : String) (v : PyVal) (o : PyObj) : Except PyErr PyObj :=
  if v.truthy then Except.ok (pySet o f v)
  else do
    let old ← pyGet o f
    Except.ok (pySet o f old)

/-- `obj.f = row.get(k, '').strip() or obj.f`. -/
def setStrOr (f : String) (row : Row) (k : String) (o : PyObj) :
    Except PyErr PyObj :=
  setOr f (strOrNone (rowGetStripped row k)) o

/-- `obj.f = float(row.get(k) or 0) or obj.f`. -/
def setFloatOr (f : String) (row : Row) (k : String) (o : PyObj) :
    Except PyErr PyObj := do
  let q ← rowFloatOr0 row k
  setOr f (PyVal.num q) o

/-- `obj.f = int(row.get(k) or 0) or obj.f`. -/
def setIntOr (f : String) (row : Row) (k : String) (o : PyObj) :
    Except PyErr PyObj := do
  let n ← rowIntOr0 row k
  setOr f (PyVal.int n) o

/-- `obj.f = int(s)` (the parse may raise `ValueError`). -/
def setIntParse (f : String) (s : String) (o : PyObj) : Except PyErr PyObj :=
  match pyParseInt s with
  | some n => Except.ok (pySet o f (PyVal.int n))
  | Option.none => Except.error "ValueError: invalid literal for int"

/-! ### Model class attributes

One list per model class: mapped columns, relationships/backrefs and
properties, i.e. what `hasattr(Model, k)` sees. The import handlers'
fate hinges on what is absent: `Customer` has `customer_code` but no `code`,
`address`, `payment_terms` or `notes`; `Item` has `material_id` /
`masterbatch_id` but no `linked_material_id` / `linked_masterbatch_id` and
no `notes`; `Machine` has `machine_code` but no `code` and none of
`machine_type`, `shot_size_g`, `screw_diameter_mm`, `max_mould_width_mm`,
`max_mould_height_mm`, `hourly_rate`; `Mould` has `tonnage_required` /
`cycle_time_seconds` / `material_compatibility` / `storage_location` but
none of `material_type`, `runner_type`, `customer_id`,
`machine_tonnage_required`, `cycle_time_target`, `location`; `Location` has
none of `is_pickable`, `is_receivable`, `max_weight_kg`, `notes`;
`Masterbatch` has `color_code` / `typical_ratio_percent` but none of
`masterbatch_type`, `color_hex`, `typical_loading_percent`. -/

/-- `Customer` class attributes (app/models/orders.py). -/
def customerAttrs : List String :=
  ["id", "customer_code", "name", "contact_name", "email", "phone",
   "address_line1", "address_line2", "city", "county", "postcode", "country",
   "billing_address_line1", "billing_address_line2", "billing_city",
   "billing_county", "billing_postcode", "billing_country", "credit_terms",
   "credit_limit", "tax_number", "special_requirements", "logo_filename",
   "is_jit", "is_active", "xero_contact_id", "created_at", "updated_at",
   "orders", "quotes", "items", "profitability_records", "full_address",
   "generate_customer_code"]

/-- `MaterialSupplier` class attributes (app/models/materials.py). -/
def supplierAttrs : List String :=
  ["id", "name", "code", "contact_name", "email", "phone", "website",
   "address_line1", "address_line2", "city", "postcode", "country",
   "account_number", "payment_terms", "lead_time_days", "minimum_order_kg",
   "notes", "is_active", "created_at", "updated_at", "materials",
   "masterbatches"]

/-- `Material` class attributes (app/models/materials.py). -/
def materialAttrs : List String :=
  ["id", "name", "code", "material_type", "grade", "manufacturer",
   "supplier_id", "supplier_code", "mfi", "density", "color", "cost_per_kg",
   "currency", "last_price_update", "current_stock_kg", "min_stock_kg",
   "reorder_qty_kg", "item_id", "barrel_temp_min", "barrel_temp_max",
   "mould_temp_min", "mould_temp_max", "drying_required", "drying_temp",
   "drying_time_hours", "datasheet_filename", "notes", "is_active",
   "created_at", "updated_at", "supplier", "item", "price_history",
   "full_name", "display_name"]

/-- `Masterbatch` class attributes (app/models/materials.py). -/
def masterbatchAttrs : List String :=
  ["id", "code", "name", "color", "color_code", "supplier_id",
   "supplier_code", "compatible_materials", "typical_ratio_percent",
   "min_ratio_percent", "max_ratio_percent", "cost_per_kg",
   "current_stock_kg", "min_stock_kg", "item_id", "notes", "is_active",
   "created_at", "updated_at", "supplier", "item"]

/-- `Mould` class attributes (app/models/production.py). -/
def mouldAttrs : List String :=
  ["id", "mould_number", "name", "description", "mould_type",
   "bolster_number", "tonnage_required", "num_cavities",
   "cycle_time_seconds", "material_compatibility", "storage_location",
   "status", "current_machine_id", "last_maintenance_date",
   "next_maintenance_date", "maintenance_interval_months", "total_shots",
   "image_filename", "is_active", "notes", "created_at", "updated_at",
   "current_machine", "setup_sheets", "production_orders",
   "maintenance_logs", "default_items", "is_maintenance_due"]

/-- `Machine` class attributes (app/models/production.py). -/
def machineAttrs : List String :=
  ["id", "name", "machine_code", "tonnage", "manufacturer", "model",
   "display_order", "position_x", "position_y", "status",
   "current_mould_id", "is_active", "notes", "created_at", "updated_at",
   "production_orders", "production_logs", "rates", "shift_logs",
   "downtime_events", "scrap_events", "current_mould"]

/-- `Location` class attributes (app/models/location.py). -/
def locationAttrs : List String :=
  ["id", "code", "name", "description", "location_type", "zone", "row",
   "bay", "shelf", "capacity_units", "max_capacity", "current_usage",
   "is_active", "created_at", "updated_at", "stock_levels",
   "available_capacity", "usage_percentage", "generate_code"]

/-- `Category` class attributes (app/models/inventory.py). -/
def categoryAttrs : List String :=
  ["id", "name", "description", "category_type", "items"]

/-- `Item` class attributes (app/models/inventory.py). -/
def itemAttrs : List String :=
  ["id", "sku", "name", "description", "category_id", "customer_id",
   "item_type", "unit_of_measure", "weight_kg", "length_mm", "width_mm",
   "height_mm", "color", "default_location_id", "default_mould_id",
   "min_stock_level", "max_stock_level", "reorder_point",
   "reorder_quantity", "material_grade", "supplier", "cycle_time_seconds",
   "parts_per_cycle", "part_weight_grams", "runner_weight_grams",
   "shot_weight_grams", "cavities", "ideal_cycle_time", "setup_time_hours",
   "material_type", "material_id", "masterbatch_id", "masterbatch_ratio",
   "regrind_percent", "material_cost_per_kg", "target_machine_rate",
   "target_margin_percent", "unit_cost", "selling_price", "image_filename",
   "barcode", "barcode_image", "is_active", "created_at", "updated_at",
   "default_location", "default_mould", "customer", "stock_levels",
   "stock_movements", "production_orders", "material", "masterbatch",
   "quotes", "material_usage", "linked_material", "linked_masterbatch",
   "parts_using_material", "parts_using_masterbatch", "total_stock",
   "available_stock", "is_low_stock", "get_stock_at_location",
   "calculated_material_cost_per_part", "calculated_cycle_cost_per_part",
   "calculated_total_cost_per_part", "calculated_selling_price"]

/-- The tables the importer touches. -/
structure ImportDB where
  customers : List PyObj
  suppliers : List PyObj
  materials : List PyObj
  masterbatches : List PyObj
  moulds : List PyObj
  machines : List PyObj
  locations : List PyObj
  categories : List PyObj
  items : List PyObj
deriving DecidableEq

/-- The empty database. -/
def emptyImportDB : ImportDB :=
  { customers := [], suppliers := [], materials := [], masterbatches := [],
    moulds := [], machines := [], locations := [], categories := [],
    items := [] }

/-- Whether a handler created or updated a record. -/
inductive RowOutcome where
  | created
  | updated
deriving DecidableEq

/-- One handler call: the (possibly partially) mutated database, and an
outcome or a raised exception. -/
abbrev HandlerResult := ImportDB × Except PyErr RowOutcome

/-- `import_customer` (data_management.py lines 292-337). Note the natural
key it uses, `Customer.code`, does not exist on the model (the column is
`customer_code`), nor do `address`, `payment_terms`, `notes`. -/
def import_customer (db : ImportDB) (row : Row) : HandlerResult :=
  let name := rowGetStripped row "name"
  if name = "" then (db, Except.error "ValueError: Name is required")
  else
    let code := pyUpper (rowGetStripped row "code")
    let codeVal := strOrNone code
    let existingE : Except PyErr (Option (ℕ × PyObj)) :=
      if code ≠ "" then
        match queryFilterByIdx customerAttrs db.customers "code" (PyVal.str code) with
        | Except.error e => Except.error e
        | Except.ok (some io) => Except.ok (some io)
        | Except.ok Option.none =>
          queryFilterByIdx customerAttrs db.customers "name" (PyVal.str name)
      else queryFilterByIdx customerAttrs db.customers "name" (PyVal.str name)
    match existingE with
    | Except.error e => (db, Except.error e)
    | Except.ok (some (idx, existing)) =>
      let acts : List (PyObj → Except PyErr PyObj) :=
        [setAttr "name" (PyVal.str name),
         setOr "code" codeVal,
         setStrOr "contact_name" row "contact_name",
         setStrOr "email" row "email",
         setStrOr "phone" row "phone",
         setStrOr "address" row "address",
         setStrOr "city" row "city",
         setStrOr "postcode" row "postcode",
         setStrOr "country" row "country",
         setStrOr "payment_terms" row "payment_terms",
         setStrOr "notes" row "notes"]
      let r := applyUpdates existing acts
      let db' := { db with customers := db.customers.set idx r.1 }
      match r.2 with
      | some e => (db', Except.error e)
      | Option.none => (db', Except.ok RowOutcome.updated)
    | Except.ok Option.none =>
      let kwargs : List (String × PyVal) :=
        [("code", codeVal), ("name", PyVal.str name),
         ("contact_name", strOrNone (rowGetStripped row "contact_name")),
         ("email", strOrNone (rowGetStripped row "email")),
         ("phone", strOrNone (rowGetStripped row "phone")),
         ("address", strOrNone (rowGetStripped row "address")),
         ("city", strOrNone (rowGetStripped row "city")),
         ("postcode", strOrNone (rowGetStripped row "postcode")),
         ("country", strOrDefault (rowGetStripped row "country") "UK"),
         ("payment_terms", strOrNone (rowGetStripped row "payment_terms")),
         ("notes", strOrNone (rowGetStripped row "notes"))]
      match pyNew customerAttrs kwargs with
      | Except.error e => (db, Except.error e)
      | Except.ok obj =>
        ({ db with customers := db.customers ++ [obj] },
         Except.ok RowOutcome.created)

/-- `import_supplier` (lines 340-388): looked up by name; all referenced
attributes exist on `MaterialSupplier`. -/
def import_supplier (db : ImportDB) (row : Row) : HandlerResult :=
  let name := rowGetStripped row "name"
  if name = "" then (db, Except.error "ValueError: Name is required")
  else
    let code := pyUpper (rowGetStripped row "code")
    let codeVal := strOrNone code
    match queryFilterByIdx supplierAttrs db.suppliers "name" (PyVal.str name) with
    | Except.error e => (db, Except.error e)
    | Except.ok (some (idx, existing)) =>
      let acts : List (PyObj → Except PyErr PyObj) :=
        [setOr "code" codeVal,
         setStrOr "contact_name" row "contact_name",
         setStrOr "email" row "email",
         setStrOr "phone" row "phone",
         setStrOr "website" row "website",
         setStrOr "address_line1" row "address_line1",
         setStrOr "address_line2" row "address_line2",
         setStrOr "city" row "city",
         setStrOr "postcode" row "postcode",
         setStrOr "country" row "country",
         setStrOr "account_number" row "account_number",
         setStrOr "payment_terms" row "payment_terms",
         setIntOr "lead_time_days" row "lead_time_days",
         setFloatOr "minimum_order_kg" row "minimum_order_kg",
         setStrOr "notes" row "notes"]
      let r := applyUpdates existing acts
      let db' := { db with suppliers := db.suppliers.set idx r.1 }
      match r.2 with
      | some e => (db', Except.error e)
      | Option.none => (db', Except.ok RowOutcome.updated)
    | Except.ok Option.none =>
      let kwargsE : List (String × Except PyErr PyVal) :=
        [("code", Except.ok codeVal), ("name", Except.ok (PyVal.str name)),
         ("contact_name", Except.ok (strOrNone (rowGetStripped row "contact_name"))),
         ("email", Except.ok (strOrNone (rowGetStripped row "email"))),
         ("phone", Except.ok (strOrNone (rowGetStripped row "phone"))),
         ("website", Except.ok (strOrNone (rowGetStripped row "website"))),
         ("address_line1", Except.ok (strOrNone (rowGetStripped row "address_line1"))),
         ("address_line2", Except.ok (strOrNone (rowGetStripped row "address_line2"))),
         ("city", Except.ok (strOrNone (rowGetStripped row "city"))),
         ("postcode", Except.ok (strOrNone (rowGetStripped row "postcode"))),
         ("country", Except.ok (strOrDefault (rowGetStripped row "country") "UK")),
         ("account_number", Except.ok (strOrNone (rowGetStripped row "account_number"))),
         ("payment_terms", Except.ok (strOrNone (rowGetStripped row "payment_terms"))),
         ("lead_time_days", intOrNoneE row "lead_time_days"),
         ("minimum_order_kg", floatOrNoneE row "minimum_order_kg"),
         ("notes", Except.ok (strOrNone (rowGetStripped row "notes")))]
      match evalKwargs kwargsE with
      | Except.error e => (db, Except.error e)
      | Except.ok kwargs =>
        match pyNew supplierAttrs kwargs with
        | Except.error e => (db, Except.error e)
        | Except.ok obj =>
          ({ db with suppliers := db.suppliers ++ [obj] },
           Except.ok RowOutcome.created)

/-- `import_material` (lines 391-451): looked up by code; all referenced
attributes exist on `Material`. -/
def import_material (db : ImportDB) (row : Row) : HandlerResult :=
  let code := pyUpper (rowGetStripped row "code")
  let name := rowGetStripped row "name"
  let material_type := pyUpper (rowGetStripped row "material_type")
  let cost := rowGetStripped row "cost_per_kg"
  if code = "" ∨ name = "" ∨ material_type = "" ∨ cost = "" then
    (db, Except.error "ValueError: Code, name, material_type, and cost_per_kg are required")
  else
    match pyParseFloat cost with
    | Option.none => (db, Except.error "ValueError: could not convert string to float")
    | some cost_per_kg =>
      match queryFilterByIdx materialAttrs db.materials "code" (PyVal.str code) with
      | Except.error e => (db, Except.error e)
      | Except.ok (some (idx, existing)) =>
        let acts : List (PyObj → Except PyErr PyObj) :=
          [setAttr "name" (PyVal.str name),
           setAttr "material_type" (PyVal.str material_type),
           setStrOr "grade" row "grade",
           setStrOr "manufacturer" row "manufacturer",
           setStrOr "supplier_code" row "supplier_code",
           setStrOr "color" row "color",
           setAttr "cost_per_kg" (PyVal.num cost_per_kg),
           setFloatOr "mfi" row "mfi",
           setFloatOr "density" row "density",
           setIntOr "barrel_temp_min" row "barrel_temp_min",
           setIntOr "barrel_temp_max" row "barrel_temp_max",
           setIntOr "mould_temp_min" row "mould_temp_min",
           setIntOr "mould_temp_max" row "mould_temp_max",
           setAttr "drying_required"
             (PyVal.bool (pyUpper ((rowGet row "drying_required").getD "") = "TRUE")),
           setIntOr "drying_temp" row "drying_temp",
           setFloatOr "drying_time_hours" row "drying_time_hours",
           setFloatOr "min_stock_kg" row "min_stock_kg",
           setStrOr "notes" row "notes",
           setAttr "last_price_update" PyVal.dt]
        let r := applyUpdates existing acts
        let db' := { db with materials := db.materials.set idx r.1 }
        match r.2 with
        | some e => (db', Except.error e)
        | Option.none => (db', Except.ok RowOutcome.updated)
      | Except.ok Option.none =>
        let kwargsE : List (String × Except PyErr PyVal) :=
          [("code", Except.ok (PyVal.str code)),
           ("name", Except.ok (PyVal.str name)),
           ("material_type", Except.ok (PyVal.str material_type)),
           ("grade", Except.ok (strOrNone (rowGetStripped row "grade"))),
           ("manufacturer", Except.ok (strOrNone (rowGetStripped row "manufacturer"))),
           ("supplier_code", Except.ok (strOrNone (rowGetStripped row "supplier_code"))),
           ("color", Except.ok (strOrDefault (rowGetStripped row "color") "Natural")),
           ("cost_per_kg", Except.ok (PyVal.num cost_per_kg)),
           ("mfi", floatOrNoneE row "mfi"),
           ("density", floatOrNoneE row "density"),
           ("barrel_temp_min", intOrNoneE row "barrel_temp_min"),
           ("barrel_temp_max", intOrNoneE row "barrel_temp_max"),
           ("mould_temp_min", intOrNoneE row "mould_temp_min"),
           ("mould_temp_max", intOrNoneE row "mould_temp_max"),
           ("drying_required", Except.ok
             (PyVal.bool (pyUpper ((rowGet row "drying_required").getD "") = "TRUE"))),
           ("drying_temp", intOrNoneE row "drying_temp"),
           ("drying_time_hours", floatOrNoneE row "drying_time_hours"),
           ("min_stock_kg", floatOrNoneE row "min_stock_kg"),
           ("notes", Except.ok (strOrNone (rowGetStripped row "notes"))),
           ("last_price_update", Except.ok PyVal.dt)]
        match evalKwargs kwargsE with
        | Except.error e => (db, Except.error e)
        | Except.ok kwargs =>
          match pyNew materialAttrs kwargs with
          | Except.error e => (db, Except.error e)
          | Except.ok obj =>
            ({ db with materials := db.materials ++ [obj] },
             Except.ok RowOutcome.created)

/-- `import_masterbatch` (lines 454-495): looked up by code, but the model
has no `masterbatch_type`, `color_hex` or `typical_loading_percent`
attribute, so creation always raises `TypeError`. -/
def import_masterbatch (db : ImportDB) (row : Row) : HandlerResult :=
  let code := pyUpper (rowGetStripped row "code")
  let name := rowGetStripped row "name"
  let mb_type := rowGetStripped row "masterbatch_type"
  let cost := rowGetStripped row "cost_per_kg"
  if code = "" ∨ name = "" ∨ mb_type = "" ∨ cost = "" then
    (db, Except.error "ValueError: Code, name, masterbatch_type, and cost_per_kg are required")
  else
    match pyParseFloat cost with
    | Option.none => (db, Except.error "ValueError: could not convert string to float")
    | some cost_per_kg =>
      match queryFilterByIdx masterbatchAttrs db.masterbatches "code" (PyVal.str code) with
      | Except.error e => (db, Except.error e)
      | Except.ok (some (idx, existing)) =>
        let acts : List (PyObj → Except PyErr PyObj) :=
          [setAttr "name" (PyVal.str name),
           setAttr "masterbatch_type" (PyVal.str mb_type),
           setStrOr "color" row "color",
           setStrOr "color_hex" row "color_hex",
           setAttr "cost_per_kg" (PyVal.num cost_per_kg),
           setFloatOr "typical_loading_percent" row "typical_loading_percent",
           setStrOr "compatible_materials" row "compatible_materials",
           setStrOr "supplier_code" row "supplier_code",
           setFloatOr "min_stock_kg" row "min_stock_kg",
           setStrOr "notes" row "notes"]
        let r := applyUpdates existing acts
        let db' := { db with masterbatches := db.masterbatches.set idx r.1 }
        match r.2 with
        | some e => (db', Except.error e)
        | Option.none => (db', Except.ok RowOutcome.updated)
      | Except.ok Option.none =>
        let kwargsE : List (String × Except PyErr PyVal) :=
          [("code", Except.ok (PyVal.str code)),
           ("name", Except.ok (PyVal.str name)),
           ("masterbatch_type", Except.ok (PyVal.str mb_type)),
           ("color", Except.ok (strOrNone (rowGetStripped row "color"))),
           ("color_hex", Except.ok (strOrNone (rowGetStripped row "color_hex"))),
           ("cost_per_kg", Except.ok (PyVal.num cost_per_kg)),
           ("typical_loading_percent", floatOrNoneE row "typical_loading_percent"),
           ("compatible_materials", Except.ok (strOrNone (rowGetStripped row "compatible_materials"))),
           ("supplier_code", Except.ok (strOrNone (rowGetStripped row "supplier_code"))),
           ("min_stock_kg", floatOrNoneE row "min_stock_kg"),
           ("notes", Except.ok (strOrNone (rowGetStripped row "notes")))]
        match evalKwargs kwargsE with
        | Except.error e => (db, Except.error e)
        | Except.ok kwargs =>
          match pyNew masterbatchAttrs kwargs with
          | Except.error e => (db, Except.error e)
          | Except.ok obj =>
            ({ db with masterbatches := db.masterbatches ++ [obj] },
             Except.ok RowOutcome.created)

/-- `rid = None; if code: obj = Model.query.filter_by(key=code).first();
if obj: rid = obj.id` — the related-record lookups of `import_mould` and
`import_item`. -/
def lookupIdByKey (attrs : List String) (objs : List PyObj) (key code : String) :
    Except PyErr PyVal :=
  if code = "" then Except.ok PyVal.none
  else
    match queryFilterByIdx attrs objs key (PyVal.str code) with
    | Except.error e => Except.error e
    | Except.ok (some io) => pyGet io.2 "id"
    | Except.ok Option.none => Except.ok PyVal.none

/-- `int(s)` as a kwarg value. -/
def intParseE (s : String) : Except PyErr PyVal :=
  match pyParseInt s with
  | some n => Except.ok (PyVal.int n)
  | Option.none => Except.error "ValueError: invalid literal for int"

/-- `float(row.get(k) or 0) or 0` as a kwarg value (a falsy float falls back
to the integer literal `0`). -/
def floatOr0E (row : Row) (k : String) : Except PyErr PyVal := do
  let q ← rowFloatOr0 row k
  Except.ok (if q = 0 then PyVal.int 0 else PyVal.num q)

/-- `import_mould` (lines 498-543): the `Customer.code` lookup raises
whenever a customer code is given, and the model has none of
`material_type`, `runner_type`, `customer_id`, `machine_tonnage_required`,
`cycle_time_target`, `location`, so creation always raises `TypeError`. -/
def import_mould (db : ImportDB) (row : Row) : HandlerResult :=
  let mould_number := pyUpper (rowGetStripped row "mould_number")
  let num_cavities := rowGetStripped row "num_cavities"
  if mould_number = "" ∨ num_cavities = "" then
    (db, Except.error "ValueError: Mould number and num_cavities are required")
  else
    let customer_code := pyUpper (rowGetStripped row "customer_code")
    match lookupIdByKey customerAttrs db.customers "code" customer_code with
    | Except.error e => (db, Except.error e)
    | Except.ok customer_id =>
      match queryFilterByIdx mouldAttrs db.moulds "mould_number" (PyVal.str mould_number) with
      | Except.error e => (db, Except.error e)
      | Except.ok (some (idx, existing)) =>
        let acts : List (PyObj → Except PyErr PyObj) :=
          [setStrOr "name" row "name",
           setIntParse "num_cavities" num_cavities,
           setStrOr "material_type" row "material_type",
           setStrOr "runner_type" row "runner_type",
           setOr "customer_id" customer_id,
           setIntOr "machine_tonnage_required" row "machine_tonnage_required",
           setFloatOr "cycle_time_target" row "cycle_time_target",
           setStrOr "status" row "status",
           setStrOr "location" row "location",
           setStrOr "notes" row "notes"]
        let r := applyUpdates existing acts
        let db' := { db with moulds := db.moulds.set idx r.1 }
        match r.2 with
        | some e => (db', Except.error e)
        | Option.none => (db', Except.ok RowOutcome.updated)
      | Except.ok Option.none =>
        let kwargsE : List (String × Except PyErr PyVal) :=
          [("mould_number", Except.ok (PyVal.str mould_number)),
           ("name", Except.ok (strOrNone (rowGetStripped row "name"))),
           ("num_cavities", intParseE num_cavities),
           ("material_type", Except.ok (strOrNone (rowGetStripped row "material_type"))),
           ("runner_type", Except.ok (strOrDefault (rowGetStripped row "runner_type") "cold")),
           ("customer_id", Except.ok customer_id),
           ("machine_tonnage_required", intOrNoneE row "machine_tonnage_required"),
           ("cycle_time_target", floatOrNoneE row "cycle_time_target"),
           ("status", Except.ok (strOrDefault (rowGetStripped row "status") "active")),
           ("location", Except.ok (strOrNone (rowGetStripped row "location"))),
           ("notes", Except.ok (strOrNone (rowGetStripped row "notes")))]
        match evalKwargs kwargsE with
        | Except.error e => (db, Except.error e)
        | Except.ok kwargs =>
          match pyNew mouldAttrs kwargs with
          | Except.error e => (db, Except.error e)
          | Except.ok obj =>
            ({ db with moulds := db.moulds ++ [obj] },
             Except.ok RowOutcome.created)

/-- `import_machine` (lines 546-587): `Machine.query.filter_by(code=...)`
raises on every row — the model's column is `machine_code`. -/
def import_machine (db : ImportDB) (row : Row) : HandlerResult :=
  let code := pyUpper (rowGetStripped row "code")
  let name := rowGetStripped row "name"
  if code = "" ∨ name = "" then
    (db, Except.error "ValueError: Code and name are required")
  else
    match queryFilterByIdx machineAttrs db.machines "code" (PyVal.str code) with
    | Except.error e => (db, Except.error e)
    | Except.ok (some (idx, existing)) =>
      let acts : List (PyObj → Except PyErr PyObj) :=
        [setAttr "name" (PyVal.str name),
         setStrOr "machine_type" row "machine_type",
         setStrOr "manufacturer" row "manufacturer",
         setStrOr "model" row "model",
         setIntOr "tonnage" row "tonnage",
         setFloatOr "shot_size_g" row "shot_size_g",
         setFloatOr "screw_diameter_mm" row "screw_diameter_mm",
         setFloatOr "max_mould_width_mm" row "max_mould_width_mm",
         setFloatOr "max_mould_height_mm" row "max_mould_height_mm",
         setFloatOr "hourly_rate" row "hourly_rate",
         setStrOr "status" row "status",
         setStrOr "notes" row "notes"]
      let r := applyUpdates existing acts
      let db' := { db with machines := db.machines.set idx r.1 }
      match r.2 with
      | some e => (db', Except.error e)
      | Option.none => (db', Except.ok RowOutcome.updated)
    | Except.ok Option.none =>
      let kwargsE : List (String × Except PyErr PyVal) :=
        [("code", Except.ok (PyVal.str code)),
         ("name", Except.ok (PyVal.str name)),
         ("machine_type", Except.ok (strOrDefault (rowGetStripped row "machine_type") "injection")),
         ("manufacturer", Except.ok (strOrNone (rowGetStripped row "manufacturer"))),
         ("model", Except.ok (strOrNone (rowGetStripped row "model"))),
         ("tonnage", intOrNoneE row "tonnage"),
         ("shot_size_g", floatOrNoneE row "shot_size_g"),
         ("screw_diameter_mm", floatOrNoneE row "screw_diameter_mm"),
         ("max_mould_width_mm", floatOrNoneE row "max_mould_width_mm"),
         ("max_mould_height_mm", floatOrNoneE row "max_mould_height_mm"),
         ("hourly_rate", floatOrNoneE row "hourly_rate"),
         ("status", Except.ok (strOrDefault (rowGetStripped row "status") "available")),
         ("notes", Except.ok (strOrNone (rowGetStripped row "notes")))]
      match evalKwargs kwargsE with
      | Except.error e => (db, Except.error e)
      | Except.ok kwargs =>
        match pyNew machineAttrs kwargs with
        | Except.error e => (db, Except.error e)
        | Except.ok obj =>
          ({ db with machines := db.machines ++ [obj] },
           Except.ok RowOutcome.created)

/-- `import_location` (lines 590-621): looked up by code (valid), but the
model has none of `is_pickable`, `is_receivable`, `max_weight_kg`, `notes`,
so creation always raises `TypeError`. -/
def import_location (db : ImportDB) (row : Row) : HandlerResult :=
  let code := pyUpper (rowGetStripped row "code")
  let name := rowGetStripped row "name"
  if code = "" ∨ name = "" then
    (db, Except.error "ValueError: Code and name are required")
  else
    match queryFilterByIdx locationAttrs db.locations "code" (PyVal.str code) with
    | Except.error e => (db, Except.error e)
    | Except.ok (some (idx, existing)) =>
      let acts : List (PyObj → Except PyErr PyObj) :=
        [setAttr "name" (PyVal.str name),
         setStrOr "zone" row "zone",
         setStrOr "location_type" row "location_type",
         setAttr "is_pickable"
           (PyVal.bool (pyUpper ((rowGet row "is_pickable").getD "") ≠ "FALSE")),
         setAttr "is_receivable"
           (PyVal.bool (pyUpper ((rowGet row "is_receivable").getD "") ≠ "FALSE")),
         setFloatOr "max_weight_kg" row "max_weight_kg",
         setStrOr "notes" row "notes"]
      let r := applyUpdates existing acts
      let db' := { db with locations := db.locations.set idx r.1 }
      match r.2 with
      | some e => (db', Except.error e)
      | Option.none => (db', Except.ok RowOutcome.updated)
    | Except.ok Option.none =>
      let kwargsE : List (String × Except PyErr PyVal) :=
        [("code", Except.ok (PyVal.str code)),
         ("name", Except.ok (PyVal.str name)),
         ("zone", Except.ok (strOrNone (rowGetStripped row "zone"))),
         ("location_type", Except.ok (strOrDefault (rowGetStripped row "location_type") "rack")),
         ("is_pickable", Except.ok
           (PyVal.bool (pyUpper ((rowGet row "is_pickable").getD "") ≠ "FALSE"))),
         ("is_receivable", Except.ok
           (PyVal.bool (pyUpper ((rowGet row "is_receivable").getD "") ≠ "FALSE"))),
         ("max_weight_kg", floatOrNoneE row "max_weight_kg"),
         ("notes", Except.ok (strOrNone (rowGetStripped row "notes")))]
      match evalKwargs kwargsE with
      | Except.error e => (db, Except.error e)
      | Except.ok kwargs =>
        match pyNew locationAttrs kwargs with
        | Except.error e => (db, Except.error e)
        | Except.ok obj =>
          ({ db with locations := db.locations ++ [obj] },
           Except.ok RowOutcome.created)

/-- `import_category` (lines 624-644): looked up by name; all referenced
attributes exist on `Category`. -/
def import_category (db : ImportDB) (row : Row) : HandlerResult :=
  let name := rowGetStripped row "name"
  if name = "" then (db, Except.error "ValueError: Name is required")
  else
    match queryFilterByIdx categoryAttrs db.categories "name" (PyVal.str name) with
    | Except.error e => (db, Except.error e)
    | Except.ok (some (idx, existing)) =>
      let acts : List (PyObj → Except PyErr PyObj) :=
        [setStrOr "description" row "description",
         setStrOr "category_type" row "category_type"]
      let r := applyUpdates existing acts
      let db' := { db with categories := db.categories.set idx r.1 }
      match r.2 with
      | some e => (db', Except.error e)
      | Option.none => (db', Except.ok RowOutcome.updated)
    | Except.ok Option.none =>
      let kwargs : List (String × PyVal) :=
        [("name", PyVal.str name),
         ("description", strOrNone (rowGetStripped row "description")),
         ("category_type", strOrNone (rowGetStripped row "category_type"))]
      match pyNew categoryAttrs kwargs with
      | Except.error e => (db, Except.error e)
      | Except.ok obj =>
        ({ db with categories := db.categories ++ [obj] },
         Except.ok RowOutcome.created)

/-- `import_item` (lines 647-732): the `Customer.code` lookup raises when a
customer code is given, and the model has no `linked_material_id`,
`linked_masterbatch_id` or `notes` attribute, so creation always raises
`TypeError`. -/
def import_item (db : ImportDB) (row : Row) : HandlerResult :=
  let sku := pyUpper (rowGetStripped row "sku")
  let name := rowGetStripped row "name"
  if sku = "" ∨ name = "" then
    (db, Except.error "ValueError: SKU and name are required")
  else
    match lookupIdByKey customerAttrs db.customers "code"
        (pyUpper (rowGetStripped row "customer_code")) with
    | Except.error e => (db, Except.error e)
    | Except.ok customer_id =>
      match lookupIdByKey mouldAttrs db.moulds "mould_number"
          (pyUpper (rowGetStripped row "mould_number")) with
      | Except.error e => (db, Except.error e)
      | Except.ok mould_id =>
        match lookupIdByKey materialAttrs db.materials "code"
            (pyUpper (rowGetStripped row "material_code")) with
        | Except.error e => (db, Except.error e)
        | Except.ok material_id =>
          match lookupIdByKey masterbatchAttrs db.masterbatches "code"
              (pyUpper (rowGetStripped row "masterbatch_code")) with
          | Except.error e => (db, Except.error e)
          | Except.ok masterbatch_id =>
            match queryFilterByIdx itemAttrs db.items "sku" (PyVal.str sku) with
            | Except.error e => (db, Except.error e)
            | Except.ok (some (idx, existing)) =>
              let acts : List (PyObj → Except PyErr PyObj) :=
                [setAttr "name" (PyVal.str name),
                 setStrOr "description" row "description",
                 setStrOr "item_type" row "item_type",
                 setOr "customer_id" customer_id,
                 setStrOr "unit_of_measure" row "unit_of_measure",
                 setFloatOr "part_weight_grams" row "part_weight_grams",
                 setFloatOr "runner_weight_grams" row "runner_weight_grams",
                 setIntOr "cavities" row "cavities",
                 setFloatOr "cycle_time_seconds" row "cycle_time_seconds",
                 setOr "linked_material_id" material_id,
                 setOr "linked_masterbatch_id" masterbatch_id,
                 setStrOr "masterbatch_ratio" row "masterbatch_ratio",
                 setFloatOr "material_cost_per_kg" row "material_cost_per_kg",
                 setOr "default_mould_id" mould_id,
                 setStrOr "color" row "color",
                 setFloatOr "min_stock_level" row "min_stock_level",
                 setFloatOr "unit_cost" row "unit_cost",
                 setFloatOr "selling_price" row "selling_price",
                 setStrOr "notes" row "notes"]
              let r := applyUpdates existing acts
              let db' := { db with items := db.items.set idx r.1 }
              match r.2 with
              | some e => (db', Except.error e)
              | Option.none => (db', Except.ok RowOutcome.updated)
            | Except.ok Option.none =>
              let kwargsE : List (String × Except PyErr PyVal) :=
                [("sku", Except.ok (PyVal.str sku)),
                 ("name", Except.ok (PyVal.str name)),
                 ("description", Except.ok (strOrNone (rowGetStripped row "description"))),
                 ("item_type", Except.ok (strOrDefault (rowGetStripped row "item_type") "finished_goods")),
                 ("customer_id", Except.ok customer_id),
                 ("unit_of_measure", Except.ok (strOrDefault (rowGetStripped row "unit_of_measure") "parts")),
                 ("part_weight_grams", floatOrNoneE row "part_weight_grams"),
                 ("runner_weight_grams", floatOrNoneE row "runner_weight_grams"),
                 ("cavities", intOrDefaultE row "cavities" 1),
                 ("cycle_time_seconds", floatOrNoneE row "cycle_time_seconds"),
                 ("linked_material_id", Except.ok material_id),
                 ("linked_masterbatch_id", Except.ok masterbatch_id),
                 ("masterbatch_ratio", Except.ok (strOrNone (rowGetStripped row "masterbatch_ratio"))),
                 ("material_cost_per_kg", floatOrNoneE row "material_cost_per_kg"),
                 ("default_mould_id", Except.ok mould_id),
                 ("color", Except.ok (strOrNone (rowGetStripped row "color"))),
                 ("min_stock_level", floatOr0E row "min_stock_level"),
                 ("unit_cost", floatOr0E row "unit_cost"),
                 ("selling_price", floatOr0E row "selling_price"),
                 ("notes", Except.ok (strOrNone (rowGetStripped row "notes"))),
                 ("barcode", Except.ok (PyVal.str sku))]
              match evalKwargs kwargsE with
              | Except.error e => (db, Except.error e)
              | Except.ok kwargs =>
                match pyNew itemAttrs kwargs with
                | Except.error e => (db, Except.error e)
                | Except.ok obj =>
                  ({ db with items := db.items ++ [obj] },
                   Except.ok RowOutcome.created)

/-- The supported CSV data types; `import_data` rejects any other value
before `import_records` runs. -/
inductive DataType where
  | customers
  | materials
  | suppliers
  | masterbatches
  | moulds
  | machines
  | locations
  | items
  | categories
deriving DecidableEq

/-- The `if data_type == ...` dispatch chain of `import_records`. -/
def runHandler : DataType → ImportDB → Row → HandlerResult
  | DataType.customers, db, row => import_customer db row
  | DataType.materials, db, row => import_material db row
  | DataType.suppliers, db, row => import_supplier db row
  | DataType.masterbatches, db, row => import_masterbatch db row
  | DataType.moulds, db, row => import_mould db row
  | DataType.machines, db, row => import_machine db row
  | DataType.locations, db, row => import_location db row
  | DataType.items, db, row => import_item db row
  | DataType.categories, db, row => import_category db row

/-- The running `result` dictionary of `import_records`. -/
structure ImportResult where
  created : ℕ
  updated : ℕ
  errors : ℕ
  error_messages : List String
deriving DecidableEq

/-- The row loop of `import_records`: each row is handed to its handler
inside a `try`; an exception increments `errors` and appends
`"Row {i}: {e}"`, and the loop continues with the remaining rows. -/
def importRecordsLoop (dt : DataType) :
    List Row → ℕ → ImportDB → ImportResult → ImportDB × ImportResult
  | [], _, db, res => (db, res)
  | row :: rest, i, db, res =>
    match runHandler dt db row with
    | (db', Except.ok RowOutcome.created) =>
      importRecordsLoop dt rest (i + 1) db'
        { res with created := res.created + 1 }
    | (db', Except.ok RowOutcome.updated) =>
      importRecordsLoop dt rest (i + 1) db'
        { res with updated := res.updated + 1 }
    | (db', Except.error e) =>
      importRecordsLoop dt rest (i + 1) db'
        { res with errors := res.errors + 1,
                   error_messages := res.error_messages ++
                     ["Row " ++ toString i ++ ": " ++ e] }

/-- `import_records` (lines 260-289): counters start at zero and rows are
enumerated from 2 (row 1 is the header). -/
def import_records (dt : DataType) (rows : List Row) (db : ImportDB) :
    ImportDB × ImportResult :=
  importRecordsLoop dt rows 2 db
    { created := 0, updated := 0, errors := 0, error_messages := [] }

/-- The loop adds exactly one counter tick per row, and error messages grow
in lockstep with the error counter. -/
theorem importRecordsLoop_counts (dt : DataType) (rows : List Row) :
    ∀ i db res,
      ((importRecordsLoop dt rows i db res).2.created +
          (importRecordsLoop dt rows i db res).2.updated +
          (importRecordsLoop dt rows i db res).2.errors =
        res.created + res.updated + res.errors + rows.length) ∧
      ((importRecordsLoop dt rows i db res).2.error_messages.length +
          res.errors =
        (importRecordsLoop dt rows i db res).2.errors +
          res.error_messages.length) := by
  induction rows with
  | nil =>
    intro i db res
    simp [importRecordsLoop]
    omega
  | cons row rest ih =>
    intro i db res
    unfold importRecordsLoop
    rcases hr : runHandler dt db row with ⟨db', out⟩
    cases out with
    | ok k =>
      cases k with
      | created =>
        simp only [hr]
        refine ⟨?_, ?_⟩
        · have h := (ih (i + 1) db' { res with created := res.created + 1 }).1
          rw [h]; simp [List.length_cons]; omega
        · have h := (ih (i + 1) db' { res with created := res.created + 1 }).2
          simpa using h
      | updated =>
        simp only [hr]
        refine ⟨?_, ?_⟩
        · have h := (ih (i + 1) db' { res with updated := res.updated + 1 }).1
          rw [h]; simp [List.length_cons]; omega
        · have h := (ih (i + 1) db' { res with updated := res.updated + 1 }).2
          simpa using h
    | error e =>
      simp only [hr]
      refine ⟨?_, ?_⟩
      · have h := (ih (i + 1) db'
          { res with errors := res.errors + 1,
                     error_messages := res.error_messages ++
                       ["Row " ++ toString i ++ ": " ++ e] }).1
        rw [h]; simp [List.length_cons]; omega
      · have h := (ih (i + 1) db'
          { res with errors := res.errors + 1,
                     error_messages := res.error_messages ++
                       ["Row " ++ toString i ++ ": " ++ e] }).2
        simp at h; omega

/-- C8: for every supported data type and every list of CSV rows,
`import_records` processes rows independently and continues after failures:
every row increments exactly one of the `created`, `updated` or `errors`
counters, so `created + updated + errors` equals the number of rows; the
error-message list has one `"Row {i}: ..."` entry per counted error; and a
row whose handler raises makes the loop record the error and message and
then continue with all remaining rows. -/
theorem import_records_counts (dt : DataType) (rows : List Row) (db : ImportDB) :
    ((import_records dt rows db).2.created +
        (import_records dt rows db).2.updated +
        (import_records dt rows db).2.errors = rows.length) ∧
    ((import_records dt rows db).2.error_messages.length =
      (import_records dt rows db).2.errors) ∧
    (∀ row rest i db₀ res db₁ e,
      runHandler dt db₀ row = (db₁, Except.error e) →
      importRecordsLoop dt (row :: rest) i db₀ res =
        importRecordsLoop dt rest (i + 1) db₁
          { res with errors := res.errors + 1,
                     error_messages := res.error_messages ++
                       ["Row " ++ toString i ++ ": " ++ e] }) := by
  refine ⟨?_, ?_, ?_⟩
  · simpa using (importRecordsLoop_counts dt rows 2 db
      { created := 0, updated := 0, errors := 0, error_messages := [] }).1
  · simpa using (importRecordsLoop_counts dt rows 2 db
      { created := 0, updated := 0, errors := 0, error_messages := [] }).2
  · intro row rest i db₀ res db₁ e h
    conv_lhs => rw [importRecordsLoop]
    rw [h]

/-- A well-formed category row. -/
def rowC8 : Row := [("name", "Automotive Parts")]

/-- Witness for C8: importing one valid category row gives counters summing
to 1, and a failing row (empty name) makes the loop count the error and
continue. -/
theorem import_records_counts_witness :
    ((import_records DataType.categories [rowC8] emptyImportDB).2.created +
        (import_records DataType.categories [rowC8] emptyImportDB).2.updated +
        (import_records DataType.categories [rowC8] emptyImportDB).2.errors = 1) ∧
    importRecordsLoop DataType.categories [([] : Row)] 2 emptyImportDB
        { created := 0, updated := 0, errors := 0, error_messages := [] } =
      importRecordsLoop DataType.categories [] 3 emptyImportDB
        { created := 0, updated := 0, errors := 0 + 1,
          error_messages := [] ++ ["Row " ++ toString 2 ++ ": " ++
            "ValueError: Name is required"] } := by
  constructor
  · simpa using
      (import_records_counts DataType.categories [rowC8] emptyImportDB).1
  · exact (import_records_counts DataType.categories [] emptyImportDB).2.2
      ([] : Row) [] 2 emptyImportDB
      { created := 0, updated := 0, errors := 0, error_messages := [] }
      emptyImportDB "ValueError: Name is required" rfl

/-- A customer CSV row with a code and a name. -/
def rowC2 : Row := [("code", "ACME"), ("name", "Acme Ltd")]

/-- The database after a first import of `rowC2`. -/
def dbC2 : ImportDB :=
  (import_records DataType.customers [rowC2] emptyImportDB).1

/-- C2: importing the same customer row twice into an empty database. The
handler's natural-key lookup `Customer.query.filter_by(code=...)` references
the non-existent `Customer.code` attribute (the column is `customer_code`),
and its constructor passes `code`/`address`/`payment_terms`/`notes`, which
the model also lacks — so both runs raise on the row: each run reports
`created = 0`, `updated = 0`, `errors = 1`, and no customer row is ever
created, let alone matched and updated on re-import. (`import_item` fails
the same way: it passes `linked_material_id`/`linked_masterbatch_id`/`notes`,
which `Item` does not define.) -/
theorem import_customers_idempotence_broken :
    ((import_records DataType.customers [rowC2] emptyImportDB).2.created = 0) ∧
    ((import_records DataType.customers [rowC2] emptyImportDB).2.updated = 0) ∧
    ((import_records DataType.customers [rowC2] emptyImportDB).2.errors = 1) ∧
    (dbC2.customers = []) ∧
    ((import_records DataType.customers [rowC2] dbC2).2.created = 0) ∧
    ((import_records DataType.customers [rowC2] dbC2).2.updated = 0) ∧
    ((import_records DataType.customers [rowC2] dbC2).2.errors = 1) := by
  refine ⟨?_, ?_, ?_, ?_, ?_, ?_, ?_⟩ <;> rfl

end WMS
